import Mathlib

set_option maxRecDepth 100000

/-!
A verification development for the `gaol` process sandbox (Linux backend).

The definitions below are a shallow embedding of the repository's source:

* `src/profile.rs`      — the policy data model (`Profile`, `Operation`, patterns);
* `src/platform/linux/seccomp.rs` — the seccomp-BPF filter compiler (`Filter::new`),
  together with an executable semantics of classic BPF over the seccomp
  data record, and the `Filter::activate` install sequence;
* `src/platform/linux/namespace.rs` — the namespace/chroot jail builder,
  modelled as a state machine that records the sequence of kernel
  interactions it performs and consults an environment for their results.

Machine integers are modelled as `Nat` with explicit `% 2^32` (or `% 2^16`)
where the source truncates; C `int` results of kernel calls are `Int`.
All definitions are executable.
-/

namespace Gaol

/-! ## Paths (std::old_path::posix::Path)

The source manipulates paths through `std::old_path` (the `old_io` path
type of Rust 1.0.0-alpha).  A path is modelled as its list of normalized
components plus an absolute flag.  `push` follows the documented
`old_path` semantics: pushing an absolute path replaces `self`, pushing a
relative path appends its components. -/

structure OldPath where
  absolute : Bool
  components : List String
deriving DecidableEq, Repr

def OldPath.push (self other : OldPath) : OldPath :=
  if other.absolute then other
  else OldPath.mk self.absolute (self.components ++ other.components)

/-- Push a single relative component (the `Vec<u8>` pushes in `bind_mount`). -/
def OldPath.pushComp (self : OldPath) (c : String) : OldPath :=
  self.push (OldPath.mk false [c])

/-- Render a path as the byte string handed to the kernel
(`as_os_str().to_str()` in the source). -/
def OldPath.render (self : OldPath) : String :=
  (if self.absolute then "/" else "") ++ String.intercalate "/" self.components

/-! ## Policy model (src/profile.rs) -/

/-- Platform-specific operation.  The `platform::linux::Operation` type is
not present under `src/` (only `lib.rs` re-exports it); the spec says the
core treats it as an uninterpreted backend extension, so it is modelled as
a single uninterpreted value.  Modelled from the spec: `PlatformSpecific(…)
is a backend-defined extension; the core treats it as uninterpreted`. -/
inductive PlatformOperation where
  | mk
deriving DecidableEq, Repr

/-- `PathPattern` from src/profile.rs lines 46-51. -/
inductive PathPattern where
  | Literal (path : OldPath)
  | Subpath (path : OldPath)
deriving DecidableEq, Repr

/-- `AddressPattern` from src/profile.rs lines 54-59. -/
inductive AddressPattern where
  | Tcp (port : Nat)
  | LocalSocket (path : OldPath)
deriving DecidableEq, Repr

/-- `Operation` from src/profile.rs lines 30-43. -/
inductive Operation where
  | FileReadAll (pattern : PathPattern)
  | FileReadMetadata (pattern : PathPattern)
  | NetworkOutbound (pattern : AddressPattern)
  | SystemInfoRead
  | SystemSocket
  | PlatformSpecific (op : PlatformOperation)
deriving DecidableEq, Repr

/-- `Profile` from src/profile.rs lines 25-27. -/
structure Profile where
  allowed_operations : List Operation
deriving DecidableEq, Repr

/-- `Profile::new` from src/profile.rs lines 63-67.  In the source this
function is infallible: it wraps the operation list unconditionally and
returns a bare `Profile` (no `Result`). -/
def Profile.new (allowed_operations : List Operation) : Profile :=
  Profile.mk allowed_operations

/-- `Profile::allowed_operations` from src/profile.rs lines 70-72. -/
def Profile.allowedOperations (self : Profile) : List Operation :=
  self.allowed_operations

/-- The `any` query over `Operation::FileReadMetadata` used at
src/platform/linux/seccomp.rs lines 242-247. -/
def hasFileReadMetadata (profile : Profile) : Bool :=
  profile.allowedOperations.any fun operation =>
    match operation with
    | Operation.FileReadMetadata _ => true
    | _ => false

/-- The `any` query over `Operation::FileReadAll` used at
src/platform/linux/seccomp.rs lines 251-256. -/
def hasFileReadAll (profile : Profile) : Bool :=
  profile.allowedOperations.any fun operation =>
    match operation with
    | Operation.FileReadAll _ => true
    | _ => false

/-- The `any` query over `Operation::NetworkOutbound` used at
src/platform/linux/seccomp.rs lines 271-276 and
src/platform/linux/namespace.rs lines 52-57. -/
def hasNetworkOutbound (profile : Profile) : Bool :=
  profile.allowedOperations.any fun operation =>
    match operation with
    | Operation.NetworkOutbound _ => true
    | _ => false

/-- The `any` query over `Operation::SystemSocket` used at
src/platform/linux/seccomp.rs lines 280-285. -/
def hasSystemSocket (profile : Profile) : Bool :=
  profile.allowedOperations.any fun operation =>
    match operation with
    | Operation.SystemSocket => true
    | _ => false

/-! ## seccomp constants (src/platform/linux/seccomp.rs lines 30-114) -/

def SECCOMP_RET_KILL : Nat := 0
def SECCOMP_RET_ALLOW : Nat := 0x7fff0000

def LD : Nat := 0x00
def JMP : Nat := 0x05
def RET : Nat := 0x06
def W : Nat := 0
def ABS : Nat := 0x20
def JEQ : Nat := 0x10
def JSET : Nat := 0x40
def K : Nat := 0x00

def SYSCALL_NR_OFFSET : Nat := 0
def ARCH_NR_OFFSET : Nat := 4
def ARG_0_OFFSET : Nat := 16
def ARG_1_OFFSET : Nat := 24
def ARG_2_OFFSET : Nat := 32

def AF_UNIX : Nat := 1
def AF_INET : Nat := 2
def AF_INET6 : Nat := 10
def AF_NETLINK : Nat := 16

def CLONE_VM : Nat := 0x00000100
def CLONE_FS : Nat := 0x00000200
def CLONE_FILES : Nat := 0x00000400
def CLONE_SIGHAND : Nat := 0x00000800
def CLONE_THREAD : Nat := 0x00010000
def CLONE_SYSVSEM : Nat := 0x00040000
def CLONE_SETTLS : Nat := 0x00080000
def CLONE_PARENT_SETTID : Nat := 0x00100000
def CLONE_CHILD_CLEARTID : Nat := 0x00200000

def O_RDONLY : Nat := 0
def O_NONBLOCK : Nat := 2048
def O_NOCTTY : Nat := 256
def O_CLOEXEC : Nat := 524288

def FIONREAD : Nat := 0x541b

def NETLINK_ROUTE : Nat := 0

def NR_read : Nat := 0
def NR_write : Nat := 1
def NR_open : Nat := 2
def NR_close : Nat := 3
def NR_stat : Nat := 4
def NR_fstat : Nat := 5
def NR_poll : Nat := 7
def NR_lseek : Nat := 8
def NR_mmap : Nat := 9
def NR_mprotect : Nat := 10
def NR_munmap : Nat := 11
def NR_brk : Nat := 12
def NR_rt_sigreturn : Nat := 15
def NR_ioctl : Nat := 16
def NR_access : Nat := 21
def NR_madvise : Nat := 28
def NR_socket : Nat := 41
def NR_connect : Nat := 42
def NR_sendto : Nat := 44
def NR_recvfrom : Nat := 45
def NR_recvmsg : Nat := 47
def NR_bind : Nat := 49
def NR_getsockname : Nat := 51
def NR_clone : Nat := 56
def NR_exit : Nat := 60
def NR_readlink : Nat := 89
def NR_getuid : Nat := 102
def NR_sigaltstack : Nat := 131
def NR_futex : Nat := 202
def NR_sched_getaffinity : Nat := 204
def NR_exit_group : Nat := 231
/-- In the source this constant is `0`, identical to `NR_read`, although on
x86_64 the `set_robust_list` syscall number is 273. -/
def NR_set_robust_list : Nat := 0
def NR_sendmmsg : Nat := 307
def NR_unknown_318 : Nat := 318

def EM_X86_64 : Nat := 62
def AUDIT_ARCH_64BIT : Nat := 0x80000000
def AUDIT_ARCH_LE : Nat := 0x40000000
def AUDIT_ARCH_X86_64 : Nat := EM_X86_64 ||| AUDIT_ARCH_64BIT ||| AUDIT_ARCH_LE
/-- The build is modelled for `target_arch = "x86_64"`. -/
def ARCH_NR : Nat := AUDIT_ARCH_X86_64

def PR_SET_SECCOMP : Int := 22
def PR_SET_NO_NEW_PRIVS : Int := 38
def SECCOMP_MODE_FILTER : Int := 2

/-! ## BPF instructions (src/platform/linux/seccomp.rs lines 116-229, 403-410) -/

/-- `sock_filter` from src/platform/linux/seccomp.rs lines 403-410.
Fields are `Nat`; `code` is a u16, `jt`/`jf` are u8, `k` a u32.  The
builder writes `jt`/`jf` values untruncated; that the source's `as u8`
cast never truncates is proved separately (claim C5). -/
structure sock_filter where
  code : Nat
  jt : Nat
  jf : Nat
  k : Nat
deriving DecidableEq, Repr

def ALLOW_SYSCALL : sock_filter := sock_filter.mk (RET + K) 0 0 SECCOMP_RET_ALLOW
def KILL_PROCESS : sock_filter := sock_filter.mk (RET + K) 0 0 SECCOMP_RET_KILL
def EXAMINE_SYSCALL : sock_filter := sock_filter.mk (LD + W + ABS) 0 0 SYSCALL_NR_OFFSET
def EXAMINE_ARG_0 : sock_filter := sock_filter.mk (LD + W + ABS) 0 0 ARG_0_OFFSET
def EXAMINE_ARG_1 : sock_filter := sock_filter.mk (LD + W + ABS) 0 0 ARG_1_OFFSET
def EXAMINE_ARG_2 : sock_filter := sock_filter.mk (LD + W + ABS) 0 0 ARG_2_OFFSET
def VALIDATE_ARCHITECTURE_0 : sock_filter := sock_filter.mk (LD + W + ABS) 0 0 ARCH_NR_OFFSET
def VALIDATE_ARCHITECTURE_1 : sock_filter := sock_filter.mk (JMP + JEQ + K) 1 0 ARCH_NR
def VALIDATE_ARCHITECTURE_2 : sock_filter := KILL_PROCESS

def FILTER_PROLOGUE : List sock_filter :=
  [VALIDATE_ARCHITECTURE_0, VALIDATE_ARCHITECTURE_1, VALIDATE_ARCHITECTURE_2]

def FILTER_EPILOGUE : List sock_filter := [KILL_PROCESS]

/-- `ALLOWED_SYSCALLS` from src/platform/linux/seccomp.rs lines 128-151,
in source order.  Note `NR_set_robust_list = 0` in the source. -/
def ALLOWED_SYSCALLS : List Nat :=
  [NR_brk, NR_close, NR_exit, NR_exit_group, NR_futex, NR_getuid,
   NR_madvise, NR_mmap, NR_mprotect, NR_munmap, NR_poll, NR_read,
   NR_recvfrom, NR_recvmsg, NR_rt_sigreturn, NR_sched_getaffinity,
   NR_sendmmsg, NR_sendto, NR_set_robust_list, NR_sigaltstack,
   NR_unknown_318, NR_write]

def ALLOWED_SYSCALLS_FOR_FILE_READ_METADATA : List Nat :=
  [NR_access, NR_fstat, NR_readlink, NR_stat]

def ALLOWED_SYSCALLS_FOR_FILE_READ : List Nat := [NR_lseek]

def ALLOWED_SYSCALLS_FOR_NETWORK_OUTBOUND : List Nat := [NR_bind, NR_connect]

def ALLOWED_SYSCALLS_FOR_SYSTEM_SOCKET : List Nat := [NR_getsockname]

/-- Bitwise complement on u32, the `!mask as u32` at
src/platform/linux/seccomp.rs line 261. -/
def notU32 (mask : Nat) : Nat := 0xffffffff ^^^ (mask % 2^32)

/-! ## The filter builder (src/platform/linux/seccomp.rs lines 236-315, 343-400)

The builder appends to a flat program and back-patches jump offsets,
exactly as `Filter` does.  The `usize as u8` casts at lines 387 and 399
are modelled by `% 256`. -/

def setJf (program : List sock_filter) (index : Nat) (v : Nat) : List sock_filter :=
  match program[index]? with
  | some i => program.set index (sock_filter.mk i.code i.jt v i.k)
  | none => program

def setJt (program : List sock_filter) (index : Nat) (v : Nat) : List sock_filter :=
  match program[index]? with
  | some i => program.set index (sock_filter.mk i.code v i.jf i.k)
  | none => program

/-- `Filter::allow_this_syscall`, lines 343-345. -/
def allow_this_syscall (program : List sock_filter) : List sock_filter :=
  program ++ [ALLOW_SYSCALL]

/-- `Filter::if_k_is`, lines 378-388 (patches `jf`, `% 256` is the `as u8`
cast). -/
def if_k_is (value : Nat) (then_ : List sock_filter → List sock_filter)
    (program : List sock_filter) : List sock_filter :=
  let index := program.length
  let program := program ++ [sock_filter.mk (JMP + JEQ + K) 0 0 value]
  let program := then_ program
  setJf program index ((program.length - index - 1) % 256)

/-- `Filter::if_k_hasnt_set`, lines 390-400 (patches `jt`). -/
def if_k_hasnt_set (value : Nat) (then_ : List sock_filter → List sock_filter)
    (program : List sock_filter) : List sock_filter :=
  let index := program.length
  let program := program ++ [sock_filter.mk (JMP + JSET + K) 0 0 value]
  let program := then_ program
  setJt program index ((program.length - index - 1) % 256)

/-- `Filter::if_syscall_is`, lines 353-356. -/
def if_syscall_is (number : Nat) (then_ : List sock_filter → List sock_filter)
    (program : List sock_filter) : List sock_filter :=
  if_k_is number then_ (program ++ [EXAMINE_SYSCALL])

/-- `Filter::if_arg0_is`, lines 358-361. -/
def if_arg0_is (value : Nat) (then_ : List sock_filter → List sock_filter)
    (program : List sock_filter) : List sock_filter :=
  if_k_is value then_ (program ++ [EXAMINE_ARG_0])

/-- `Filter::if_arg1_is`, lines 363-366. -/
def if_arg1_is (value : Nat) (then_ : List sock_filter → List sock_filter)
    (program : List sock_filter) : List sock_filter :=
  if_k_is value then_ (program ++ [EXAMINE_ARG_1])

/-- `Filter::if_arg1_hasnt_set`, lines 368-371. -/
def if_arg1_hasnt_set (value : Nat) (then_ : List sock_filter → List sock_filter)
    (program : List sock_filter) : List sock_filter :=
  if_k_hasnt_set value then_ (program ++ [EXAMINE_ARG_1])

/-- `Filter::if_arg2_is`, lines 373-376. -/
def if_arg2_is (value : Nat) (then_ : List sock_filter → List sock_filter)
    (program : List sock_filter) : List sock_filter :=
  if_k_is value then_ (program ++ [EXAMINE_ARG_2])

/-- `Filter::allow_syscalls`, lines 347-351. -/
def allow_syscalls (syscalls : List Nat) (program : List sock_filter) :
    List sock_filter :=
  syscalls.foldl (fun program syscall =>
    if_syscall_is syscall allow_this_syscall program) program

/-- The body of `Filter::new` (src/platform/linux/seccomp.rs lines 236-315)
with the four profile queries abstracted as booleans; `Filter.new` below
applies it to the queries exactly as the source evaluates them. -/
def Filter.newB (metadata fileRead network socket : Bool) : List sock_filter :=
  let program := FILTER_PROLOGUE
  let program := allow_syscalls ALLOWED_SYSCALLS program
  let program :=
    if metadata then allow_syscalls ALLOWED_SYSCALLS_FOR_FILE_READ_METADATA program
    else program
  let program :=
    if fileRead then
      let program := allow_syscalls ALLOWED_SYSCALLS_FOR_FILE_READ program
      -- Only allow file reading.
      let program := if_syscall_is NR_open
        (if_arg1_hasnt_set (notU32 (O_RDONLY ||| O_CLOEXEC ||| O_NOCTTY ||| O_NONBLOCK))
          allow_this_syscall) program
      -- Only allow the `FIONREAD` `ioctl` to be performed.
      if_syscall_is NR_ioctl (if_arg1_is FIONREAD allow_this_syscall) program
    else program
  let program :=
    if network then allow_syscalls ALLOWED_SYSCALLS_FOR_NETWORK_OUTBOUND program
    else program
  let program :=
    if socket then
      let program := allow_syscalls ALLOWED_SYSCALLS_FOR_SYSTEM_SOCKET program
      -- Only allow Unix, IPv4, IPv6, and netlink route sockets to be created.
      if_syscall_is NR_socket (fun program =>
        let program := if_arg0_is AF_UNIX allow_this_syscall program
        let program := if_arg0_is AF_INET allow_this_syscall program
        let program := if_arg0_is AF_INET6 allow_this_syscall program
        if_arg0_is AF_NETLINK (if_arg2_is NETLINK_ROUTE allow_this_syscall) program)
        program
    else program
  -- Only allow normal threads to be created.
  let program := if_syscall_is NR_clone
    (if_arg0_is (CLONE_VM ||| CLONE_FS ||| CLONE_FILES ||| CLONE_SIGHAND |||
                 CLONE_THREAD ||| CLONE_SYSVSEM ||| CLONE_SETTLS |||
                 CLONE_PARENT_SETTID ||| CLONE_CHILD_CLEARTID)
      allow_this_syscall) program
  program ++ FILTER_EPILOGUE

/-- `Filter::new` from src/platform/linux/seccomp.rs lines 236-315. -/
def Filter.new (profile : Profile) : List sock_filter :=
  Filter.newB (hasFileReadMetadata profile) (hasFileReadAll profile)
    (hasNetworkOutbound profile) (hasSystemSocket profile)

/-! ## Executable semantics of classic BPF over the seccomp data record

The data record layout is u32 syscall number at offset 0, u32 arch at 4,
u64 args at 16, 24, 32, … (spec §6); loads read the low 32 bits. -/

structure SeccompData where
  nr : Nat
  arch : Nat
  arg0 : Nat
  arg1 : Nat
  arg2 : Nat
  arg3 : Nat
  arg4 : Nat
  arg5 : Nat
deriving DecidableEq, Repr

/-- `BPF_LD|BPF_W|BPF_ABS` at offset `off` over the seccomp data record. -/
def seccompLoad (d : SeccompData) (off : Nat) : Nat :=
  if off = 0 then d.nr % 2^32
  else if off = 4 then d.arch % 2^32
  else if off = 16 then d.arg0 % 2^32
  else if off = 24 then d.arg1 % 2^32
  else if off = 32 then d.arg2 % 2^32
  else if off = 40 then d.arg3 % 2^32
  else if off = 48 then d.arg4 % 2^32
  else if off = 56 then d.arg5 % 2^32
  else 0

/-- One-accumulator classic BPF evaluation with explicit fuel.  `pc` is the
program counter, `a` the accumulator.  Only the four opcodes the compiler
emits are interpreted; anything else (or running off the end, or fuel
exhaustion) yields `none`. -/
def bpfRun (prog : List sock_filter) (d : SeccompData) :
    Nat → Nat → Nat → Option Nat
  | 0, _, _ => none
  | fuel + 1, pc, a =>
    match prog[pc]? with
    | none => none
    | some i =>
      if i.code = RET + K then some i.k
      else if i.code = LD + W + ABS then
        bpfRun prog d fuel (pc + 1) (seccompLoad d i.k)
      else if i.code = JMP + JEQ + K then
        bpfRun prog d fuel (pc + 1 + (if a = i.k then i.jt else i.jf)) a
      else if i.code = JMP + JSET + K then
        bpfRun prog d fuel (pc + 1 + (if a &&& i.k ≠ 0 then i.jt else i.jf)) a
      else none

/-- Evaluate a seccomp program on a data record.  Since every interpreted
instruction strictly advances `pc`, fuel `length + 1` is always enough. -/
def seccompEval (prog : List sock_filter) (d : SeccompData) : Option Nat :=
  bpfRun prog d (prog.length + 1) 0 0

/-- `Runs prog d pc a r`: evaluation from `pc` with accumulator `a`
terminates with return value `r`. -/
def Runs (prog : List sock_filter) (d : SeccompData) (pc a r : Nat) : Prop :=
  ∃ fuel, bpfRun prog d fuel pc a = some r

/-- Bounds-and-opcode wellformedness of a program: every instruction is
one of the four interpreted opcodes and all of its successors are in
bounds.  (`decide`-able for concrete programs.) -/
def wfB (prog : List sock_filter) : Bool :=
  (List.range prog.length).all fun pc =>
    match prog[pc]? with
    | none => false
    | some i =>
      (i.code == RET + K) ||
      ((i.code == LD + W + ABS) && decide (pc + 1 < prog.length)) ||
      (((i.code == JMP + JEQ + K) || (i.code == JMP + JSET + K)) &&
        decide (pc + 1 + i.jt < prog.length) && decide (pc + 1 + i.jf < prog.length))

/-! ## Block-structured form of the compiled program

`Filter.newB` builds the program by appending and back-patching, with a
`% 256` for the source's `as u8` cast.  The following right-nested block
form carries the jump offsets untruncated; `newB_eq_blocksB` (proved
below by exhausting the four booleans) states that the builder produces
exactly this program — in particular that no patched offset is ever
truncated by the cast. -/

/-- `load k; if A = v then fall into `body` else skip it`. -/
def loadJeqBlk (off v : Nat) (body : List sock_filter) : List sock_filter :=
  sock_filter.mk (LD + W + ABS) 0 0 off ::
    sock_filter.mk (JMP + JEQ + K) 0 body.length v :: body

/-- `load k; if A &&& v ≠ 0 then skip `body` else fall into it`. -/
def loadJsetBlk (off v : Nat) (body : List sock_filter) : List sock_filter :=
  sock_filter.mk (LD + W + ABS) 0 0 off ::
    sock_filter.mk (JMP + JSET + K) body.length 0 v :: body

/-- The `load-nr; if-eq n allow` sequence for each syscall of a table. -/
def allowTable (syscalls : List Nat) : List sock_filter :=
  syscalls.foldr (fun n acc => loadJeqBlk SYSCALL_NR_OFFSET n [ALLOW_SYSCALL] ++ acc) []

def openBlk : List sock_filter :=
  loadJeqBlk SYSCALL_NR_OFFSET NR_open
    (loadJsetBlk ARG_1_OFFSET (notU32 (O_RDONLY ||| O_CLOEXEC ||| O_NOCTTY ||| O_NONBLOCK))
      [ALLOW_SYSCALL])

def ioctlBlk : List sock_filter :=
  loadJeqBlk SYSCALL_NR_OFFSET NR_ioctl
    (loadJeqBlk ARG_1_OFFSET FIONREAD [ALLOW_SYSCALL])

def socketBlk : List sock_filter :=
  loadJeqBlk SYSCALL_NR_OFFSET NR_socket
    (loadJeqBlk ARG_0_OFFSET AF_UNIX [ALLOW_SYSCALL] ++
     loadJeqBlk ARG_0_OFFSET AF_INET [ALLOW_SYSCALL] ++
     loadJeqBlk ARG_0_OFFSET AF_INET6 [ALLOW_SYSCALL] ++
     loadJeqBlk ARG_0_OFFSET AF_NETLINK
       (loadJeqBlk ARG_2_OFFSET NETLINK_ROUTE [ALLOW_SYSCALL]))

def CLONE_THREAD_FLAGS : Nat :=
  CLONE_VM ||| CLONE_FS ||| CLONE_FILES ||| CLONE_SIGHAND ||| CLONE_THREAD |||
  CLONE_SYSVSEM ||| CLONE_SETTLS ||| CLONE_PARENT_SETTID ||| CLONE_CHILD_CLEARTID

def cloneBlk : List sock_filter :=
  loadJeqBlk SYSCALL_NR_OFFSET NR_clone
    (loadJeqBlk ARG_0_OFFSET CLONE_THREAD_FLAGS [ALLOW_SYSCALL])

/-- The block-structured program for each combination of profile queries. -/
def Filter.blocksB (metadata fileRead network socket : Bool) : List sock_filter :=
  FILTER_PROLOGUE ++
  allowTable ALLOWED_SYSCALLS ++
  (if metadata then allowTable ALLOWED_SYSCALLS_FOR_FILE_READ_METADATA else []) ++
  (if fileRead then allowTable ALLOWED_SYSCALLS_FOR_FILE_READ ++ openBlk ++ ioctlBlk
   else []) ++
  (if network then allowTable ALLOWED_SYSCALLS_FOR_NETWORK_OUTBOUND else []) ++
  (if socket then allowTable ALLOWED_SYSCALLS_FOR_SYSTEM_SOCKET ++ socketBlk else []) ++
  cloneBlk ++ FILTER_EPILOGUE

/-! ## Kernel interaction model for the jail builder
(src/platform/linux/namespace.rs)

Each fallible interaction with the kernel (or the filesystem API backed by
it) is recorded in a trace, and its result is supplied by an environment
that maps the interaction's ordinal to a C-`int` return value (0 means
success).  This makes the order of kernel transitions, and the
abort-on-first-failure behaviour, directly provable. -/

inductive KernelCall where
  /-- `unshare(flags)` (namespace.rs line 62). -/
  | unshare (flags : Nat)
  /-- `File::create` + write of a textual file under `/proc/self`
  (namespace.rs lines 76-83); creation and write are one interaction. -/
  | procWrite (path : String) (contents : String)
  /-- `setresgid` (namespace.rs line 89). -/
  | setresgid (rgid egid sgid : Nat)
  /-- `setresuid` (namespace.rs line 93). -/
  | setresuid (ruid euid suid : Nat)
  /-- `TempDir::new("gaol")` (namespace.rs line 108). -/
  | mkdtemp
  /-- `mount(source, target, fstype, flags, data)` (namespace.rs lines
  125 and 220-225). -/
  | mount (source : String) (target : OldPath) (fstype : String) (flags : Nat)
  /-- `fs::stat` (namespace.rs line 187). -/
  | statPath (path : OldPath)
  /-- `fs::mkdir` with `FilePermission::all()` (lines 179, 192). -/
  | mkdir (path : OldPath) (mode : Nat)
  /-- `File::create` of the mount target (line 200). -/
  | createFile (path : OldPath)
  /-- `chroot` (line 157). -/
  | chroot (path : OldPath)
  /-- `env::set_current_dir` (line 163). -/
  | chdir (path : String)
  /-- `libc::chmod` (line 241). -/
  | chmod (path : OldPath) (mode : Nat)
  /-- `capset` (lines 253-260). -/
  | capset (version : Nat) (pid : Nat) (effective permitted inheritable : Nat)
deriving DecidableEq, Repr

/-- The environment supplying kernel results.  `ret i` is the C return
value of the `i`-th interaction (for the `/proc` writes, a nonzero value
stands for an `IoError` with that errno).  `isDir p` is what a successful
`fs::stat(p)` reports, `jailPath` is the directory a successful
`TempDir::new` yields, and `parentUid`/`parentGid` are the (infallible)
`getuid()`/`getgid()` results. -/
structure Env where
  ret : Nat → Int
  isDir : OldPath → Bool
  jailPath : OldPath
  parentUid : Nat
  parentGid : Nat

/-- Kernel-interaction state: the ordinal of the next interaction and the
trace of interactions performed so far. -/
structure KSt where
  idx : Nat
  trace : List KernelCall
deriving Repr

def KSt.initial : KSt := KSt.mk 0 []

/-- Perform one kernel interaction: record it, consume one result. -/
def kcall (env : Env) (c : KernelCall) (s : KSt) : Int × KSt :=
  (env.ret s.idx, KSt.mk (s.idx + 1) (s.trace ++ [c]))

/-- A kernel interaction guarded the way the source guards it: on a
nonzero result, fail with `errOf result` (the source either propagates
`result` itself or collapses the failure to a constant). -/
def kstep (env : Env) (c : KernelCall) (errOf : Int → Int) (s : KSt) :
    Except Int Unit × KSt :=
  let r := kcall env c s
  if r.1 ≠ 0 then (Except.error (errOf r.1), r.2) else (Except.ok (), r.2)

/-- Sequencing with early abort, the `try!` of the source. -/
def kbind {α β : Type} (f : KSt → Except Int α × KSt)
    (g : α → KSt → Except Int β × KSt) (s : KSt) : Except Int β × KSt :=
  match f s with
  | (Except.ok a, s') => g a s'
  | (Except.error e, s') => (Except.error e, s')

def kpure {α : Type} (a : α) (s : KSt) : Except Int α × KSt := (Except.ok a, s)

/-- Remap the error value of a computation, the `Err(_) => return Err(c)`
pattern of the source. -/
def kmapErr {α : Type} (f : KSt → Except Int α × KSt) (remap : Int → Int)
    (s : KSt) : Except Int α × KSt :=
  match f s with
  | (Except.ok a, s') => (Except.ok a, s')
  | (Except.error e, s') => (Except.error (remap e), s')

/-! ### The jail builder functions (src/platform/linux/namespace.rs) -/

/-- The data `Namespace::new` returns (lines 33-36). -/
structure NamespaceData where
  parent_uid : Nat
  parent_gid : Nat
deriving DecidableEq, Repr

def CLONE_NEWNS : Nat := 0x00020000
def CLONE_NEWUTS : Nat := 0x04000000
def CLONE_NEWIPC : Nat := 0x08000000
def CLONE_NEWUSER : Nat := 0x10000000
def CLONE_NEWNET : Nat := 0x40000000

/-- The unshare flag word computed in `Namespace::new` (lines 49-59):
the base namespaces, plus `CLONE_NEWNET` iff no `NetworkOutbound`
operation is allowed. -/
def Namespace.flags (profile : Profile) : Nat :=
  let flags := CLONE_FS ||| CLONE_NEWUSER ||| CLONE_NEWIPC ||| CLONE_NEWNS ||| CLONE_NEWUTS
  if !hasNetworkOutbound profile then flags ||| CLONE_NEWNET else flags

/-- `Namespace::new` (lines 39-72): one `unshare`; on success, capture the
parent uid/gid read before it. -/
def Namespace.new (env : Env) (profile : Profile) :
    KSt → Except Int NamespaceData × KSt :=
  kbind (kstep env (KernelCall.unshare (Namespace.flags profile)) id)
    (fun _ => kpure (NamespaceData.mk env.parentUid env.parentGid))

/-- `Namespace::init` (lines 74-84): the three `/proc/self` writes, a
failing write propagating its `IoError`. -/
def Namespace.init (env : Env) (ns : NamespaceData) :
    KSt → Except Int Unit × KSt :=
  kbind (kstep env (KernelCall.procWrite "/proc/self/setgroups" "deny") id)
    (fun _ => kbind
      (kstep env (KernelCall.procWrite "/proc/self/gid_map"
        ("1 " ++ toString ns.parent_gid ++ " 1")) id)
      (fun _ =>
        kstep env (KernelCall.procWrite "/proc/self/uid_map"
          ("1 " ++ toString ns.parent_uid ++ " 1")) id))

/-- `switch_to_unprivileged_user` (lines 87-100). -/
def switch_to_unprivileged_user (env : Env) : KSt → Except Int Unit × KSt :=
  kbind (kstep env (KernelCall.setresgid 1 1 1) id)
    (fun _ => kstep env (KernelCall.setresuid 1 1 1) id)

def MS_NOATIME : Nat := 1024
def MS_BIND : Nat := 4096
def MS_REC : Nat := 16384
def MS_MGC_VAL : Nat := 0xc0ed0000

/-- The intermediate-directory loop of `ChrootJail::bind_mount`
(lines 171-182): push each component onto the accumulated destination,
`mkdir` it, any failure collapsing to `Err(-1)`. -/
def mkdirLoop (env : Env) : List String → OldPath → KSt →
    Except Int OldPath × KSt
  | [], destination, s => kpure destination s
  | component :: rest, destination, s =>
    let destination := destination.pushComp component
    kbind (kstep env (KernelCall.mkdir destination 511) (fun _ => -1))
      (fun _ => mkdirLoop env rest destination) s

/-- `ChrootJail::bind_mount` (lines 169-231).  Note the source takes the
components of `destination_path` — the jail directory itself — not of
`source_path`, pops the last one, `mkdir`s the prefixes, `stat`s the
source to decide between `mkdir` and `File::create` for the target, then
pushes the (absolute) source path and mounts. -/
def ChrootJail.bind_mount (env : Env) (jailDir : OldPath) (source_path : OldPath) :
    KSt → Except Int Unit × KSt :=
  let components := jailDir.components
  let last_component := components.getLast?
  kbind (mkdirLoop env components.dropLast jailDir)
    (fun destination =>
      kbind
        (match last_component with
         | some lc =>
           let destination := destination.pushComp lc
           kbind (kstep env (KernelCall.statPath source_path) (fun _ => -1))
             (fun _ =>
               kbind
                 (if env.isDir source_path then
                    kstep env (KernelCall.mkdir destination 511) (fun _ => -1)
                  else
                    kstep env (KernelCall.createFile destination) (fun _ => -1))
                 (fun _ => kpure destination))
         | none => kpure destination)
        (fun destination =>
          let destination := destination.push source_path
          kstep env
            (KernelCall.mount source_path.render destination "bind"
              (MS_MGC_VAL ||| MS_BIND ||| MS_REC)) id))

/-- `ChrootJail::disallow_reading` (lines 233-248): `chmod 0` on the jail
directory with the (absolute) source path pushed onto it. -/
def ChrootJail.disallow_reading (env : Env) (jailDir : OldPath)
    (source_path : OldPath) : KSt → Except Int Unit × KSt :=
  kstep env (KernelCall.chmod (jailDir.push source_path) 0) id

/-- The population loop of `ChrootJail::new` (lines 131-144). -/
def ChrootJail.populate (env : Env) (jailDir : OldPath) :
    List Operation → KSt → Except Int Unit × KSt
  | [], s => kpure () s
  | operation :: rest, s =>
    match operation with
    | Operation.FileReadAll (PathPattern.Literal path)
    | Operation.FileReadAll (PathPattern.Subpath path) =>
      kbind (ChrootJail.bind_mount env jailDir path)
        (fun _ => ChrootJail.populate env jailDir rest) s
    | Operation.FileReadMetadata (PathPattern.Literal path)
    | Operation.FileReadMetadata (PathPattern.Subpath path) =>
      kbind (ChrootJail.bind_mount env jailDir path)
        (fun _ => kbind (ChrootJail.disallow_reading env jailDir path)
          (fun _ => ChrootJail.populate env jailDir rest)) s
    | _ => ChrootJail.populate env jailDir rest s

/-- `ChrootJail::new` (lines 107-147): temporary directory, tmpfs mount
with `MS_NOATIME`, then the population loop. -/
def ChrootJail.new (env : Env) (profile : Profile) :
    KSt → Except Int OldPath × KSt :=
  kbind (kstep env KernelCall.mkdtemp (fun _ => -1))
    (fun _ =>
      kbind (kstep env (KernelCall.mount "tmpfs" env.jailPath "tmpfs" MS_NOATIME) id)
        (fun _ =>
          kbind (ChrootJail.populate env env.jailPath profile.allowedOperations)
            (fun _ => kpure env.jailPath)))

/-- `ChrootJail::enter` (lines 149-167): `chroot`, then `chdir(".")`, the
latter's failure collapsed to `Err(-1)`. -/
def ChrootJail.enter (env : Env) (jailDir : OldPath) :
    KSt → Except Int Unit × KSt :=
  kbind (kstep env (KernelCall.chroot jailDir) id)
    (fun _ => kstep env (KernelCall.chdir ".") (fun _ => -1))

def LINUX_CAPABILITY_VERSION_3 : Nat := 0x20080522

/-- `drop_capabilities` (lines 251-267). -/
def drop_capabilities (env : Env) : KSt → Except Int Unit × KSt :=
  kstep env (KernelCall.capset LINUX_CAPABILITY_VERSION_3 0 0 0 0) id

/-- `activate` (namespace.rs lines 22-31): the full jail sequence.  A
failure of `Namespace::init` is collapsed to `Err(1)` (the source's
`Err(_) => return Err(1)`), dropping the originating `IoError`. -/
def namespaceActivate (env : Env) (profile : Profile) :
    KSt → Except Int Unit × KSt :=
  kbind (Namespace.new env profile)
    (fun ns =>
      kbind (kmapErr (Namespace.init env ns) (fun _ => 1))
        (fun _ =>
          kbind (switch_to_unprivileged_user env)
            (fun _ => kbind (ChrootJail.new env profile)
              (fun jail => kbind (ChrootJail.enter env jail)
                (fun _ => drop_capabilities env)))))

/-! ### The expected all-success traces of the jail builder

Pure mirrors of the trace each builder function emits when every kernel
interaction succeeds; `c7` below proves `namespaceActivate` emits exactly
`fullTrace` in that case, exhibiting the order of the kernel transitions. -/

/-- Push a list of single components in order. -/
def pushComps (p : OldPath) : List String → OldPath
  | [] => p
  | c :: cs => pushComps (p.pushComp c) cs

def mkdirLoopTrace : List String → OldPath → List KernelCall
  | [], _ => []
  | c :: cs, dest => KernelCall.mkdir (dest.pushComp c) 511 :: mkdirLoopTrace cs (dest.pushComp c)

def bindMountTrace (env : Env) (jailDir source_path : OldPath) : List KernelCall :=
  let components := jailDir.components
  let afterLoop := pushComps jailDir components.dropLast
  mkdirLoopTrace components.dropLast jailDir ++
  (match components.getLast? with
   | some lc =>
     [KernelCall.statPath source_path,
      if env.isDir source_path then KernelCall.mkdir (afterLoop.pushComp lc) 511
      else KernelCall.createFile (afterLoop.pushComp lc)] ++
     [KernelCall.mount source_path.render ((afterLoop.pushComp lc).push source_path) "bind"
        (MS_MGC_VAL ||| MS_BIND ||| MS_REC)]
   | none =>
     [KernelCall.mount source_path.render (afterLoop.push source_path) "bind"
        (MS_MGC_VAL ||| MS_BIND ||| MS_REC)])

def populateTrace (env : Env) (jailDir : OldPath) : List Operation → List KernelCall
  | [] => []
  | operation :: rest =>
    match operation with
    | Operation.FileReadAll (PathPattern.Literal path)
    | Operation.FileReadAll (PathPattern.Subpath path) =>
      bindMountTrace env jailDir path ++ populateTrace env jailDir rest
    | Operation.FileReadMetadata (PathPattern.Literal path)
    | Operation.FileReadMetadata (PathPattern.Subpath path) =>
      bindMountTrace env jailDir path ++ [KernelCall.chmod (jailDir.push path) 0] ++
        populateTrace env jailDir rest
    | _ => populateTrace env jailDir rest

/-- The complete kernel-interaction sequence of a fully successful
`activate`: unshare; the `setgroups`, `gid_map`, `uid_map` writes;
`setresgid`; `setresuid`; temp dir; tmpfs mount; the per-operation jail
population; `chroot`; `chdir(".")`; `capset`. -/
def fullTrace (env : Env) (profile : Profile) : List KernelCall :=
  [KernelCall.unshare (Namespace.flags profile),
   KernelCall.procWrite "/proc/self/setgroups" "deny",
   KernelCall.procWrite "/proc/self/gid_map" ("1 " ++ toString env.parentGid ++ " 1"),
   KernelCall.procWrite "/proc/self/uid_map" ("1 " ++ toString env.parentUid ++ " 1"),
   KernelCall.setresgid 1 1 1,
   KernelCall.setresuid 1 1 1,
   KernelCall.mkdtemp,
   KernelCall.mount "tmpfs" env.jailPath "tmpfs" MS_NOATIME] ++
  populateTrace env env.jailPath profile.allowedOperations ++
  [KernelCall.chroot env.jailPath,
   KernelCall.chdir ".",
   KernelCall.capset LINUX_CAPABILITY_VERSION_3 0 0 0 0]

/-- Well-behavedness of a jail-builder step with respect to an
environment: the interaction counter tracks the trace length, the trace
only grows, every interaction strictly before the last one performed
succeeded, success means every interaction performed succeeded, and an
error is reported only when the last interaction performed failed (so no
interaction is ever attempted after a failure). -/
def WB (env : Env) {α : Type} (f : KSt → Except Int α × KSt) : Prop :=
  ∀ s : KSt, s.idx = s.trace.length →
    ((f s).2.idx = (f s).2.trace.length ∧
     (∃ t, (f s).2.trace = s.trace ++ t) ∧
     (∀ j, s.idx ≤ j → j + 1 < (f s).2.idx → env.ret j = 0) ∧
     (∀ a, (f s).1 = Except.ok a → ∀ j, s.idx ≤ j → j < (f s).2.idx → env.ret j = 0) ∧
     (∀ e, (f s).1 = Except.error e →
       s.idx < (f s).2.idx ∧ env.ret ((f s).2.idx - 1) ≠ 0))

/-! ## `Filter::activate` (src/platform/linux/seccomp.rs lines 319-341) -/

/-- `sock_fprog` (lines 412-418); `len` is a `c_ushort`. -/
structure sock_fprog where
  len : Nat
  filter : List sock_filter
deriving DecidableEq, Repr

/-- One `prctl` invocation as issued by `Filter::activate`; the third
argument of the `PR_SET_SECCOMP` call is the address of a `sock_fprog`,
recorded here by value. -/
inductive PrctlCall where
  | prctlInt (option : Int) (arg2 arg3 arg4 arg5 : Int)
  | prctlProg (option : Int) (arg2 : Int) (prog : sock_fprog) (arg4 arg5 : Int)
deriving DecidableEq, Repr

/-- `Filter::activate` (lines 319-341): set `PR_SET_NO_NEW_PRIVS`, and
only if that returned 0, load the program via `PR_SET_SECCOMP` with mode
`SECCOMP_MODE_FILTER`; the fourth argument of the second call is the
source's literal `-1`.  `env i` is the result of the `i`-th `prctl`. -/
def Filter.activate (env : Nat → Int) (program : List sock_filter) :
    Except Int Unit × List PrctlCall :=
  let result := env 0
  let calls := [PrctlCall.prctlInt PR_SET_NO_NEW_PRIVS 1 0 0 0]
  if result ≠ 0 then (Except.error result, calls)
  else
    let prog := sock_fprog.mk (program.length % 2^16) program
    let result := env 1
    let calls := calls ++
      [PrctlCall.prctlProg PR_SET_SECCOMP SECCOMP_MODE_FILTER prog (-1) 0]
    if result = 0 then (Except.ok (), calls) else (Except.error result, calls)

/-! ## Generic lemmas about the BPF semantics -/

/-- Evaluation is invariant under translation past a prefix: all control
flow is relative and forward. -/
theorem bpfRun_append (l1 l2 : List sock_filter) (d : SeccompData) :
    ∀ (fuel k a : Nat), bpfRun (l1 ++ l2) d fuel (l1.length + k) a = bpfRun l2 d fuel k a
  | 0, _, _ => rfl
  | fuel + 1, k, a => by
    have hidx : (l1 ++ l2)[l1.length + k]? = l2[k]? := by
      rw [List.getElem?_append_right (Nat.le_add_right _ _)]
      congr 1
      omega
    simp only [bpfRun, hidx]
    cases hk : l2[k]? with
    | none => rfl
    | some i =>
      by_cases h1 : i.code = RET + K
      · simp only [if_pos h1]
      by_cases h2 : i.code = LD + W + ABS
      · have := bpfRun_append l1 l2 d fuel (k + 1) (seccompLoad d i.k)
        simp only [if_neg h1, if_pos h2]
        rw [show l1.length + k + 1 = l1.length + (k + 1) by omega, this]
      by_cases h3 : i.code = JMP + JEQ + K
      · have := bpfRun_append l1 l2 d fuel (k + 1 + (if a = i.k then i.jt else i.jf)) a
        simp only [if_neg h1, if_neg h2, if_pos h3]
        rw [show l1.length + k + 1 + (if a = i.k then i.jt else i.jf)
              = l1.length + (k + 1 + (if a = i.k then i.jt else i.jf)) by omega, this]
      by_cases h4 : i.code = JMP + JSET + K
      · have := bpfRun_append l1 l2 d fuel (k + 1 + (if a &&& i.k ≠ 0 then i.jt else i.jf)) a
        simp only [if_neg h1, if_neg h2, if_neg h3, if_pos h4]
        rw [show l1.length + k + 1 + (if a &&& i.k ≠ 0 then i.jt else i.jf)
              = l1.length + (k + 1 + (if a &&& i.k ≠ 0 then i.jt else i.jf)) by omega, this]
      simp only [if_neg h1, if_neg h2, if_neg h3, if_neg h4]

/-- A terminating evaluation is stable under additional fuel. -/
theorem bpfRun_mono (prog : List sock_filter) (d : SeccompData) :
    ∀ (fuel : Nat) {pc a r : Nat} {fuel' : Nat}, fuel ≤ fuel' →
      bpfRun prog d fuel pc a = some r → bpfRun prog d fuel' pc a = some r
  | 0, _, _, _, _, _, h => by simp [bpfRun] at h
  | fuel + 1, pc, a, r, fuel' + 1, hle, h => by
    simp only [bpfRun] at h ⊢
    cases hk : prog[pc]? with
    | none =>
      simp only [hk] at h
      exact absurd h (by simp)
    | some i =>
      simp only [hk] at h ⊢
      by_cases h1 : i.code = RET + K
      · simpa only [if_pos h1] using h
      by_cases h2 : i.code = LD + W + ABS
      · simp only [if_neg h1, if_pos h2] at h ⊢
        exact bpfRun_mono prog d fuel (Nat.le_of_succ_le_succ hle) h
      by_cases h3 : i.code = JMP + JEQ + K
      · simp only [if_neg h1, if_neg h2, if_pos h3] at h ⊢
        exact bpfRun_mono prog d fuel (Nat.le_of_succ_le_succ hle) h
      by_cases h4 : i.code = JMP + JSET + K
      · simp only [if_neg h1, if_neg h2, if_neg h3, if_pos h4] at h ⊢
        exact bpfRun_mono prog d fuel (Nat.le_of_succ_le_succ hle) h
      · simp only [if_neg h1, if_neg h2, if_neg h3, if_neg h4] at h
        exact absurd h (by simp)

/-- The return value of a terminating evaluation is unique. -/
theorem bpfRun_det {prog : List sock_filter} {d : SeccompData}
    {f1 f2 pc a r1 r2 : Nat} (h1 : bpfRun prog d f1 pc a = some r1)
    (h2 : bpfRun prog d f2 pc a = some r2) : r1 = r2 := by
  have e1 := bpfRun_mono prog d f1 (Nat.le_max_left f1 f2) h1
  have e2 := bpfRun_mono prog d f2 (Nat.le_max_right f1 f2) h2
  rw [e1] at e2
  exact Option.some_injective _ e2

/-- On a wellformed program, evaluation from an in-bounds `pc` with fuel
exceeding the remaining distance to the end always terminates. -/
theorem bpfRun_total {prog : List sock_filter} (hwf : wfB prog = true)
    (d : SeccompData) :
    ∀ (fuel : Nat) {pc : Nat} (a : Nat), pc < prog.length →
      prog.length - pc < fuel → (bpfRun prog d fuel pc a).isSome := by
  intro fuel
  induction fuel with
  | zero => intro pc a hpc hf; omega
  | succ fuel ih =>
    intro pc a hpc hf
    have hmem : pc ∈ List.range prog.length := List.mem_range.mpr hpc
    have hins := List.all_eq_true.mp hwf pc hmem
    simp only [bpfRun]
    cases hk : prog[pc]? with
    | none =>
      simp only [hk] at hins
      exact absurd hins (by simp)
    | some i =>
      simp only [hk] at hins
      by_cases h1 : i.code = RET + K
      · simp only [hk, if_pos h1, Option.isSome_some]
      by_cases h2 : i.code = LD + W + ABS
      · have hne3 : i.code ≠ JMP + JEQ + K := by rw [h2]; decide
        have hne4 : i.code ≠ JMP + JSET + K := by rw [h2]; decide
        have hlt : pc + 1 < prog.length := by
          simp only [Bool.or_eq_true, Bool.and_eq_true, beq_iff_eq,
            decide_eq_true_eq] at hins
          tauto
        simp only [if_neg h1, if_pos h2]
        exact ih _ hlt (by omega)
      by_cases h34 : i.code = JMP + JEQ + K ∨ i.code = JMP + JSET + K
      · have hlt : pc + 1 + i.jt < prog.length ∧ pc + 1 + i.jf < prog.length := by
          simp only [Bool.or_eq_true, Bool.and_eq_true, beq_iff_eq,
            decide_eq_true_eq] at hins
          tauto
        by_cases h3 : i.code = JMP + JEQ + K
        · simp only [if_neg h1, if_neg h2, if_pos h3]
          by_cases hc : a = i.k
          · simp only [hc, if_pos rfl]
            exact ih _ hlt.1 (by omega)
          · simp only [if_neg hc]
            exact ih _ hlt.2 (by omega)
        · have h4 : i.code = JMP + JSET + K := h34.resolve_left h3
          simp only [if_neg h1, if_neg h2, if_neg h3, if_pos h4]
          by_cases hc : a &&& i.k ≠ 0
          · simp only [if_pos hc]
            exact ih _ hlt.1 (by omega)
          · simp only [if_neg hc]
            exact ih _ hlt.2 (by omega)
      · exfalso
        have h3 : ¬i.code = JMP + JEQ + K := fun h => h34 (Or.inl h)
        have h4 : ¬i.code = JMP + JSET + K := fun h => h34 (Or.inr h)
        simp only [Bool.or_eq_true, Bool.and_eq_true, beq_iff_eq,
          decide_eq_true_eq] at hins
        tauto

/-- Any value a run returns is the `k` of some `RET` instruction of the
program. -/
theorem bpfRun_ret_mem {prog : List sock_filter} {d : SeccompData} :
    ∀ {fuel pc a r : Nat}, bpfRun prog d fuel pc a = some r →
      ∃ i, i ∈ prog ∧ i.code = RET + K ∧ i.k = r := by
  intro fuel
  induction fuel with
  | zero => intro pc a r h; simp [bpfRun] at h
  | succ fuel ih =>
    intro pc a r h
    simp only [bpfRun] at h
    cases hk : prog[pc]? with
    | none =>
      simp only [hk] at h
      exact absurd h (by simp)
    | some i =>
      simp only [hk] at h
      have hmem : i ∈ prog := by
        have := List.getElem?_eq_some_iff.mp hk
        obtain ⟨hlt, hget⟩ := this
        exact hget ▸ List.getElem_mem hlt
      by_cases h1 : i.code = RET + K
      · simp only [if_pos h1] at h
        exact ⟨i, hmem, h1, Option.some_injective _ h⟩
      by_cases h2 : i.code = LD + W + ABS
      · simp only [if_neg h1, if_pos h2] at h
        exact ih h
      by_cases h3 : i.code = JMP + JEQ + K
      · simp only [if_neg h1, if_neg h2, if_pos h3] at h
        exact ih h
      by_cases h4 : i.code = JMP + JSET + K
      · simp only [if_neg h1, if_neg h2, if_neg h3, if_pos h4] at h
        exact ih h
      · simp only [if_neg h1, if_neg h2, if_neg h3, if_neg h4] at h
        exact absurd h (by simp)

/-- On a wellformed nonempty program, a terminating run from the start
determines `seccompEval`. -/
theorem seccompEval_eq {prog : List sock_filter} (hwf : wfB prog = true)
    (hpos : 0 < prog.length) {d : SeccompData} {r : Nat}
    (h : Runs prog d 0 0 r) : seccompEval prog d = some r := by
  obtain ⟨fuel, hf⟩ := h
  have ht := bpfRun_total hwf d (prog.length + 1) 0 hpos (by omega)
  obtain ⟨r', hr'⟩ := Option.isSome_iff_exists.mp ht
  rw [seccompEval, hr']
  exact congrArg some (bpfRun_det hr' hf)

/-! ## Block-level evaluation lemmas -/

/-- The builder and the block-structured program agree for every
combination of the four profile queries; in particular no `as u8` cast in
the patching helpers ever truncates. -/
theorem newB_eq_blocksB :
    ∀ metadata fileRead network socket : Bool,
      Filter.newB metadata fileRead network socket =
        Filter.blocksB metadata fileRead network socket := by decide

theorem filterNew_eq_blocks (profile : Profile) :
    Filter.new profile =
      Filter.blocksB (hasFileReadMetadata profile) (hasFileReadAll profile)
        (hasNetworkOutbound profile) (hasSystemSocket profile) :=
  newB_eq_blocksB _ _ _ _

theorem Runs.shift (l1 : List sock_filter) {l2 : List sock_filter}
    {d : SeccompData} {k a r : Nat} (h : Runs l2 d k a r) :
    Runs (l1 ++ l2) d (l1.length + k) a r := by
  obtain ⟨fuel, hf⟩ := h
  exact ⟨fuel, by rw [bpfRun_append]; exact hf⟩

theorem runs_allow (rest : List sock_filter) (d : SeccompData) (a : Nat) :
    Runs (ALLOW_SYSCALL :: rest) d 0 a SECCOMP_RET_ALLOW :=
  ⟨1, by simp [bpfRun, ALLOW_SYSCALL, RET, K]⟩

theorem runs_kill (rest : List sock_filter) (d : SeccompData) (a : Nat) :
    Runs (KILL_PROCESS :: rest) d 0 a SECCOMP_RET_KILL :=
  ⟨1, by simp [bpfRun, KILL_PROCESS, RET, K]⟩

theorem runs_loadJeq_enter {off v : Nat} {body rest : List sock_filter}
    {d : SeccompData} {r : Nat} (hv : seccompLoad d off = v)
    (h : ∀ a, Runs (body ++ rest) d 0 a r) (a : Nat) :
    Runs (loadJeqBlk off v body ++ rest) d 0 a r := by
  obtain ⟨fuel, hf⟩ := h (seccompLoad d off)
  refine ⟨fuel + 2, ?_⟩
  simp only [loadJeqBlk, List.cons_append]
  simp only [bpfRun, List.getElem?_cons_zero, List.getElem?_cons_succ]
  simp only [LD, W, ABS, RET, K, JMP, JEQ, JSET]
  norm_num [hv]
  convert (bpfRun_append
    [sock_filter.mk (LD + W + ABS) 0 0 off, sock_filter.mk (JMP + JEQ + K) 0 body.length v]
    (body ++ rest) d fuel 0 (seccompLoad d off)).trans hf using 2
  all_goals first
  | rfl
  | omega
  | (simp [LD, W, ABS, JMP, JEQ, K, hv]; done)
  | (simp [List.length_cons]; omega)

theorem runs_loadJeq_skip {off v : Nat} {body rest : List sock_filter}
    {d : SeccompData} {r : Nat} (hv : seccompLoad d off ≠ v)
    (h : ∀ a, Runs rest d 0 a r) (a : Nat) :
    Runs (loadJeqBlk off v body ++ rest) d 0 a r := by
  obtain ⟨fuel, hf⟩ := h (seccompLoad d off)
  refine ⟨fuel + 2, ?_⟩
  simp only [loadJeqBlk, List.cons_append]
  simp only [bpfRun, List.getElem?_cons_zero, List.getElem?_cons_succ]
  simp only [LD, W, ABS, RET, K, JMP, JEQ, JSET]
  norm_num [hv]
  convert (bpfRun_append
    (sock_filter.mk (LD + W + ABS) 0 0 off ::
      sock_filter.mk (JMP + JEQ + K) 0 body.length v :: body)
    rest d fuel 0 (seccompLoad d off)).trans hf using 2
  all_goals first
  | rfl
  | omega
  | (simp [LD, W, ABS, JMP, JEQ, K]; done)
  | (simp [List.length_cons]; omega)

theorem runs_loadJset_fall {off v : Nat} {body rest : List sock_filter}
    {d : SeccompData} {r : Nat} (hv : seccompLoad d off &&& v = 0)
    (h : ∀ a, Runs (body ++ rest) d 0 a r) (a : Nat) :
    Runs (loadJsetBlk off v body ++ rest) d 0 a r := by
  obtain ⟨fuel, hf⟩ := h (seccompLoad d off)
  refine ⟨fuel + 2, ?_⟩
  simp only [loadJsetBlk, List.cons_append]
  simp only [bpfRun, List.getElem?_cons_zero, List.getElem?_cons_succ]
  simp only [LD, W, ABS, RET, K, JMP, JEQ, JSET]
  norm_num [hv]
  convert (bpfRun_append
    [sock_filter.mk (LD + W + ABS) 0 0 off, sock_filter.mk (JMP + JSET + K) body.length 0 v]
    (body ++ rest) d fuel 0 (seccompLoad d off)).trans hf using 2
  all_goals first
  | rfl
  | omega
  | (simp [LD, W, ABS, JMP, JSET, K]; done)
  | (simp [List.length_cons]; omega)

theorem runs_loadJset_taken {off v : Nat} {body rest : List sock_filter}
    {d : SeccompData} {r : Nat} (hv : seccompLoad d off &&& v ≠ 0)
    (h : ∀ a, Runs rest d 0 a r) (a : Nat) :
    Runs (loadJsetBlk off v body ++ rest) d 0 a r := by
  obtain ⟨fuel, hf⟩ := h (seccompLoad d off)
  refine ⟨fuel + 2, ?_⟩
  simp only [loadJsetBlk, List.cons_append]
  simp only [bpfRun, List.getElem?_cons_zero, List.getElem?_cons_succ]
  simp only [LD, W, ABS, RET, K, JMP, JEQ, JSET]
  norm_num [hv]
  convert (bpfRun_append
    (sock_filter.mk (LD + W + ABS) 0 0 off ::
      sock_filter.mk (JMP + JSET + K) body.length 0 v :: body)
    rest d fuel 0 (seccompLoad d off)).trans hf using 2
  all_goals first
  | rfl
  | omega
  | (simp [LD, W, ABS, JMP, JSET, K]; done)
  | (simp [List.length_cons]; omega)

theorem runs_prologue_ok {rest : List sock_filter} {d : SeccompData} {r : Nat}
    (harch : seccompLoad d 4 = ARCH_NR) (h : ∀ a, Runs rest d 0 a r) (a : Nat) :
    Runs (FILTER_PROLOGUE ++ rest) d 0 a r := by
  obtain ⟨fuel, hf⟩ := h (seccompLoad d 4)
  refine ⟨fuel + 2, ?_⟩
  simp only [FILTER_PROLOGUE, VALIDATE_ARCHITECTURE_0, VALIDATE_ARCHITECTURE_1,
    VALIDATE_ARCHITECTURE_2, KILL_PROCESS, ARCH_NR_OFFSET, List.cons_append,
    List.nil_append]
  simp only [bpfRun, List.getElem?_cons_zero, List.getElem?_cons_succ]
  simp only [LD, W, ABS, RET, K, JMP, JEQ, JSET]
  norm_num [harch]
  convert (bpfRun_append
    [sock_filter.mk (LD + W + ABS) 0 0 4, sock_filter.mk (JMP + JEQ + K) 1 0 ARCH_NR,
      sock_filter.mk (RET + K) 0 0 SECCOMP_RET_KILL]
    rest d fuel 0 (seccompLoad d 4)).trans hf using 2
  all_goals first
  | rfl
  | omega
  | (simp [LD, W, ABS, JMP, JEQ, RET, K, harch]; done)
  | (simp [List.length_cons]; omega)

theorem runs_prologue_kill {rest : List sock_filter} {d : SeccompData}
    (harch : seccompLoad d 4 ≠ ARCH_NR) (a : Nat) :
    Runs (FILTER_PROLOGUE ++ rest) d 0 a SECCOMP_RET_KILL := by
  refine ⟨3, ?_⟩
  simp only [FILTER_PROLOGUE, VALIDATE_ARCHITECTURE_0, VALIDATE_ARCHITECTURE_1,
    VALIDATE_ARCHITECTURE_2, KILL_PROCESS, ARCH_NR_OFFSET, List.cons_append,
    List.nil_append]
  simp only [bpfRun, List.getElem?_cons_zero, List.getElem?_cons_succ]
  simp only [LD, W, ABS, RET, K, JMP, JEQ, JSET]
  norm_num [harch]

theorem runs_allowTable_skip {d : SeccompData} {rest : List sock_filter} {r : Nat} :
    ∀ ns : List Nat, seccompLoad d 0 ∉ ns → (∀ a, Runs rest d 0 a r) →
      ∀ a, Runs (allowTable ns ++ rest) d 0 a r
  | [], _, h, a => by simpa [allowTable] using h a
  | n :: ns, hmem, h, a => by
    have hne : seccompLoad d 0 ≠ n := fun he => hmem (he ▸ List.mem_cons_self n ns)
    have hrest : seccompLoad d 0 ∉ ns := fun he => hmem (List.mem_cons_of_mem n he)
    have : allowTable (n :: ns) ++ rest =
        loadJeqBlk SYSCALL_NR_OFFSET n [ALLOW_SYSCALL] ++ (allowTable ns ++ rest) := by
      simp [allowTable]
    rw [this]
    exact runs_loadJeq_skip hne (runs_allowTable_skip ns hrest h) a

theorem runs_allowTable_mem {d : SeccompData} {rest : List sock_filter} :
    ∀ ns : List Nat, seccompLoad d 0 ∈ ns →
      ∀ a, Runs (allowTable ns ++ rest) d 0 a SECCOMP_RET_ALLOW
  | [], hmem, _ => absurd hmem (List.not_mem_nil _)
  | n :: ns, hmem, a => by
    have : allowTable (n :: ns) ++ rest =
        loadJeqBlk SYSCALL_NR_OFFSET n [ALLOW_SYSCALL] ++ (allowTable ns ++ rest) := by
      simp [allowTable]
    rw [this]
    by_cases hne : seccompLoad d 0 = n
    · exact runs_loadJeq_enter hne
        (fun a' => by
          simpa using runs_allow (allowTable ns ++ rest) d a') a
    · exact runs_loadJeq_skip hne
        (runs_allowTable_mem ns (by
          cases List.mem_cons.mp hmem with
          | inl h => exact absurd h hne
          | inr h => exact h)) a

theorem runs_condTable_skip {d : SeccompData} {rest : List sock_filter} {r : Nat}
    (b : Bool) (ns : List Nat) (hmem : seccompLoad d 0 ∉ ns)
    (h : ∀ a, Runs rest d 0 a r) :
    ∀ a, Runs ((if b then allowTable ns else []) ++ rest) d 0 a r := by
  cases b
  · simpa using h
  · exact runs_allowTable_skip ns hmem h

/-- Skipping the whole `FileReadAll` conditional group when the syscall is
none of `lseek`, `open`, `ioctl`. -/
theorem runs_condRead_skip {d : SeccompData} {rest : List sock_filter} {r : Nat}
    (b : Bool) (h8 : seccompLoad d 0 ≠ NR_lseek) (h2 : seccompLoad d 0 ≠ NR_open)
    (h16 : seccompLoad d 0 ≠ NR_ioctl) (h : ∀ a, Runs rest d 0 a r) :
    ∀ a, Runs ((if b then allowTable ALLOWED_SYSCALLS_FOR_FILE_READ ++ openBlk ++ ioctlBlk
                else []) ++ rest) d 0 a r := by
  cases b
  · simpa using h
  · intro a
    rw [if_pos (by trivial), List.append_assoc, List.append_assoc]
    refine runs_allowTable_skip _ (by simpa [ALLOWED_SYSCALLS_FOR_FILE_READ] using h8) ?_ a
    intro a'
    rw [openBlk]
    refine runs_loadJeq_skip h2 ?_ a'
    intro a''
    rw [ioctlBlk]
    exact runs_loadJeq_skip h16 h a''

/-- Skipping the whole `SystemSocket` conditional group when the syscall is
neither `getsockname` nor `socket`. -/
theorem runs_condSock_skip {d : SeccompData} {rest : List sock_filter} {r : Nat}
    (b : Bool) (h51 : seccompLoad d 0 ≠ NR_getsockname)
    (h41 : seccompLoad d 0 ≠ NR_socket) (h : ∀ a, Runs rest d 0 a r) :
    ∀ a, Runs ((if b then allowTable ALLOWED_SYSCALLS_FOR_SYSTEM_SOCKET ++ socketBlk
                else []) ++ rest) d 0 a r := by
  cases b
  · simpa using h
  · intro a
    rw [if_pos rfl, List.append_assoc]
    refine runs_allowTable_skip _ (by simpa [ALLOWED_SYSCALLS_FOR_SYSTEM_SOCKET] using h51) ?_ a
    intro a'
    rw [socketBlk]
    exact runs_loadJeq_skip h41 h a'

/-- The tail of every program: the `clone` check falling through to the
terminal kill. -/
theorem runs_cloneTail_kill {d : SeccompData} (h56 : seccompLoad d 0 ≠ NR_clone) :
    ∀ a, Runs (cloneBlk ++ FILTER_EPILOGUE) d 0 a SECCOMP_RET_KILL := by
  intro a
  rw [cloneBlk]
  refine runs_loadJeq_skip h56 ?_ a
  intro a'
  exact runs_kill [] d a'

/-- The `clone` check taken: allow exactly the thread-creation flag word. -/
theorem runs_cloneTail_clone {d : SeccompData} (h56 : seccompLoad d 0 = NR_clone) :
    ∀ a, Runs (cloneBlk ++ FILTER_EPILOGUE) d 0 a
      (if seccompLoad d 16 = CLONE_THREAD_FLAGS then SECCOMP_RET_ALLOW
       else SECCOMP_RET_KILL) := by
  intro a
  rw [cloneBlk]
  refine runs_loadJeq_enter h56 ?_ a
  intro a'
  by_cases harg : seccompLoad d 16 = CLONE_THREAD_FLAGS
  · rw [if_pos harg]
    exact runs_loadJeq_enter harg (fun a'' => runs_allow FILTER_EPILOGUE d a'') a'
  · rw [if_neg harg]
    exact runs_loadJeq_skip harg (fun a'' => runs_kill [] d a'') a'

/-- A syscall matched by no rule at all is killed, for every combination of
the profile queries. -/
theorem runs_blocks_kill (m f n s : Bool) {d : SeccompData}
    (harch : seccompLoad d 4 = ARCH_NR)
    (hAS : seccompLoad d 0 ∉ ALLOWED_SYSCALLS)
    (hMeta : seccompLoad d 0 ∉ ALLOWED_SYSCALLS_FOR_FILE_READ_METADATA)
    (h8 : seccompLoad d 0 ≠ NR_lseek) (h2 : seccompLoad d 0 ≠ NR_open)
    (h16 : seccompLoad d 0 ≠ NR_ioctl) (h49 : seccompLoad d 0 ≠ NR_bind)
    (h42 : seccompLoad d 0 ≠ NR_connect) (h51 : seccompLoad d 0 ≠ NR_getsockname)
    (h41 : seccompLoad d 0 ≠ NR_socket) (h56 : seccompLoad d 0 ≠ NR_clone) :
    Runs (Filter.blocksB m f n s) d 0 0 SECCOMP_RET_KILL := by
  rw [Filter.blocksB]
  simp only [List.append_assoc]
  refine runs_prologue_ok harch ?_ 0
  refine runs_allowTable_skip _ hAS ?_
  refine runs_condTable_skip m _ hMeta ?_
  refine runs_condRead_skip f h8 h2 h16 ?_
  have hNet : seccompLoad d 0 ∉ ALLOWED_SYSCALLS_FOR_NETWORK_OUTBOUND := by
    simpa [ALLOWED_SYSCALLS_FOR_NETWORK_OUTBOUND] using And.intro h49 h42
  refine runs_condTable_skip n _ hNet ?_
  refine runs_condSock_skip s h51 h41 ?_
  exact runs_cloneTail_kill h56

/-- Like `runs_blocks_kill`, but with the `FileReadAll` conditional group
absent (the query false), so no constraint on `lseek`/`open`/`ioctl`. -/
theorem runs_blocks_kill_noRead (m n s : Bool) {d : SeccompData}
    (harch : seccompLoad d 4 = ARCH_NR)
    (hAS : seccompLoad d 0 ∉ ALLOWED_SYSCALLS)
    (hMeta : seccompLoad d 0 ∉ ALLOWED_SYSCALLS_FOR_FILE_READ_METADATA)
    (h49 : seccompLoad d 0 ≠ NR_bind) (h42 : seccompLoad d 0 ≠ NR_connect)
    (h51 : seccompLoad d 0 ≠ NR_getsockname) (h41 : seccompLoad d 0 ≠ NR_socket)
    (h56 : seccompLoad d 0 ≠ NR_clone) :
    Runs (Filter.blocksB m false n s) d 0 0 SECCOMP_RET_KILL := by
  have hNet : seccompLoad d 0 ∉ ALLOWED_SYSCALLS_FOR_NETWORK_OUTBOUND := by
    simpa [ALLOWED_SYSCALLS_FOR_NETWORK_OUTBOUND] using And.intro h49 h42
  rw [Filter.blocksB]
  simp only [List.append_assoc]
  refine runs_prologue_ok harch ?_ 0
  refine runs_allowTable_skip _ hAS ?_
  refine runs_condTable_skip m _ hMeta ?_
  intro a
  rw [if_neg (by simp), List.nil_append]
  exact runs_condTable_skip n _ hNet
    (runs_condSock_skip s h51 h41 (runs_cloneTail_kill h56)) a

theorem seccompLoad_zero (nr arch a0 a1 a2 a3 a4 a5 : Nat) :
    seccompLoad (SeccompData.mk nr arch a0 a1 a2 a3 a4 a5) 0 = nr % 2^32 := rfl

theorem seccompLoad_nrOff (nr arch a0 a1 a2 a3 a4 a5 : Nat) :
    seccompLoad (SeccompData.mk nr arch a0 a1 a2 a3 a4 a5) SYSCALL_NR_OFFSET =
      nr % 2^32 := rfl

theorem seccompLoad_four (nr arch a0 a1 a2 a3 a4 a5 : Nat) :
    seccompLoad (SeccompData.mk nr arch a0 a1 a2 a3 a4 a5) 4 = arch % 2^32 := rfl

theorem seccompLoad_arg0Off (nr arch a0 a1 a2 a3 a4 a5 : Nat) :
    seccompLoad (SeccompData.mk nr arch a0 a1 a2 a3 a4 a5) ARG_0_OFFSET =
      a0 % 2^32 := rfl

theorem seccompLoad_arg1Off (nr arch a0 a1 a2 a3 a4 a5 : Nat) :
    seccompLoad (SeccompData.mk nr arch a0 a1 a2 a3 a4 a5) ARG_1_OFFSET =
      a1 % 2^32 := rfl

theorem wfB_blocksB : ∀ m f n s : Bool, wfB (Filter.blocksB m f n s) = true := by decide

theorem blocksB_length_pos : ∀ m f n s : Bool, 0 < (Filter.blocksB m f n s).length := by
  decide

/-- A `Runs` derivation on the block form determines the evaluation of the
compiled filter. -/
theorem seccompEval_filterNew {profile : Profile} {d : SeccompData} {r : Nat}
    (h : Runs (Filter.blocksB (hasFileReadMetadata profile) (hasFileReadAll profile)
      (hasNetworkOutbound profile) (hasSystemSocket profile)) d 0 0 r) :
    seccompEval (Filter.new profile) d = some r := by
  rw [filterNew_eq_blocks]
  exact seccompEval_eq (wfB_blocksB _ _ _ _) (blocksB_length_pos _ _ _ _) h

/-! ## Claim theorems -/

/-- C1.  With a matching architecture word: `lseek` (8) is allowed iff the
profile allows some `FileReadAll`; `open` (2) is then allowed iff the low
32 bits of argument 1 contain no bit outside
`O_RDONLY | O_CLOEXEC | O_NOCTTY | O_NONBLOCK`, and killed otherwise;
`ioctl` (16) is then allowed iff the low 32 bits of argument 1 equal
`FIONREAD`; without any `FileReadAll`, all three are killed. -/
theorem c1_file_read_filter_semantics (profile : Profile) (a0 a1 a2 a3 a4 a5 : Nat) :
    seccompEval (Filter.new profile) (SeccompData.mk NR_lseek ARCH_NR a0 a1 a2 a3 a4 a5) =
      some (if hasFileReadAll profile then SECCOMP_RET_ALLOW else SECCOMP_RET_KILL) ∧
    seccompEval (Filter.new profile) (SeccompData.mk NR_open ARCH_NR a0 a1 a2 a3 a4 a5) =
      some (if hasFileReadAll profile then
              if a1 % 2^32 &&& notU32 (O_RDONLY ||| O_CLOEXEC ||| O_NOCTTY ||| O_NONBLOCK) = 0
              then SECCOMP_RET_ALLOW else SECCOMP_RET_KILL
            else SECCOMP_RET_KILL) ∧
    seccompEval (Filter.new profile) (SeccompData.mk NR_ioctl ARCH_NR a0 a1 a2 a3 a4 a5) =
      some (if hasFileReadAll profile then
              if a1 % 2^32 = FIONREAD then SECCOMP_RET_ALLOW else SECCOMP_RET_KILL
            else SECCOMP_RET_KILL) := by
  refine ⟨?_, ?_, ?_⟩
  · refine seccompEval_filterNew ?_
    cases hrf : hasFileReadAll profile
    · exact runs_blocks_kill_noRead _ _ _ (by simp only [seccompLoad_zero, seccompLoad_nrOff, seccompLoad_four, seccompLoad_arg0Off, seccompLoad_arg1Off]; decide) (by simp only [seccompLoad_zero, seccompLoad_nrOff, seccompLoad_four, seccompLoad_arg0Off, seccompLoad_arg1Off]; decide) (by simp only [seccompLoad_zero, seccompLoad_nrOff, seccompLoad_four, seccompLoad_arg0Off, seccompLoad_arg1Off]; decide)
        (by simp only [seccompLoad_zero, seccompLoad_nrOff, seccompLoad_four, seccompLoad_arg0Off, seccompLoad_arg1Off]; decide) (by simp only [seccompLoad_zero, seccompLoad_nrOff, seccompLoad_four, seccompLoad_arg0Off, seccompLoad_arg1Off]; decide) (by simp only [seccompLoad_zero, seccompLoad_nrOff, seccompLoad_four, seccompLoad_arg0Off, seccompLoad_arg1Off]; decide) (by simp only [seccompLoad_zero, seccompLoad_nrOff, seccompLoad_four, seccompLoad_arg0Off, seccompLoad_arg1Off]; decide) (by simp only [seccompLoad_zero, seccompLoad_nrOff, seccompLoad_four, seccompLoad_arg0Off, seccompLoad_arg1Off]; decide)
    · rw [Filter.blocksB]
      simp only [List.append_assoc]
      refine runs_prologue_ok (by simp only [seccompLoad_zero, seccompLoad_nrOff, seccompLoad_four, seccompLoad_arg0Off, seccompLoad_arg1Off]; decide) ?_ 0
      refine runs_allowTable_skip _ (by simp only [seccompLoad_zero, seccompLoad_nrOff, seccompLoad_four, seccompLoad_arg0Off, seccompLoad_arg1Off]; decide) ?_
      refine runs_condTable_skip _ _ (by simp only [seccompLoad_zero, seccompLoad_nrOff, seccompLoad_four, seccompLoad_arg0Off, seccompLoad_arg1Off]; decide) ?_
      intro a
      rw [if_pos (by trivial), List.append_assoc, List.append_assoc]
      exact runs_allowTable_mem _ (by simp only [seccompLoad_zero, seccompLoad_nrOff, seccompLoad_four, seccompLoad_arg0Off, seccompLoad_arg1Off]; decide) a
  · refine seccompEval_filterNew ?_
    cases hrf : hasFileReadAll profile
    · exact runs_blocks_kill_noRead _ _ _ (by simp only [seccompLoad_zero, seccompLoad_nrOff, seccompLoad_four, seccompLoad_arg0Off, seccompLoad_arg1Off]; decide) (by simp only [seccompLoad_zero, seccompLoad_nrOff, seccompLoad_four, seccompLoad_arg0Off, seccompLoad_arg1Off]; decide) (by simp only [seccompLoad_zero, seccompLoad_nrOff, seccompLoad_four, seccompLoad_arg0Off, seccompLoad_arg1Off]; decide)
        (by simp only [seccompLoad_zero, seccompLoad_nrOff, seccompLoad_four, seccompLoad_arg0Off, seccompLoad_arg1Off]; decide) (by simp only [seccompLoad_zero, seccompLoad_nrOff, seccompLoad_four, seccompLoad_arg0Off, seccompLoad_arg1Off]; decide) (by simp only [seccompLoad_zero, seccompLoad_nrOff, seccompLoad_four, seccompLoad_arg0Off, seccompLoad_arg1Off]; decide) (by simp only [seccompLoad_zero, seccompLoad_nrOff, seccompLoad_four, seccompLoad_arg0Off, seccompLoad_arg1Off]; decide) (by simp only [seccompLoad_zero, seccompLoad_nrOff, seccompLoad_four, seccompLoad_arg0Off, seccompLoad_arg1Off]; decide)
    · rw [Filter.blocksB]
      simp only [List.append_assoc]
      refine runs_prologue_ok (by simp only [seccompLoad_zero, seccompLoad_nrOff, seccompLoad_four, seccompLoad_arg0Off, seccompLoad_arg1Off]; decide) ?_ 0
      refine runs_allowTable_skip _ (by simp only [seccompLoad_zero, seccompLoad_nrOff, seccompLoad_four, seccompLoad_arg0Off, seccompLoad_arg1Off]; decide) ?_
      refine runs_condTable_skip _ _ (by simp only [seccompLoad_zero, seccompLoad_nrOff, seccompLoad_four, seccompLoad_arg0Off, seccompLoad_arg1Off]; decide) ?_
      intro a
      rw [if_pos (by trivial), List.append_assoc, List.append_assoc]
      refine runs_allowTable_skip _ (by simp only [seccompLoad_zero, seccompLoad_nrOff, seccompLoad_four, seccompLoad_arg0Off, seccompLoad_arg1Off]; decide) ?_ a
      intro a'
      rw [openBlk]
      refine runs_loadJeq_enter (by simp only [seccompLoad_zero, seccompLoad_nrOff, seccompLoad_four, seccompLoad_arg0Off, seccompLoad_arg1Off]; decide) ?_ a'
      intro a''
      by_cases hflags :
        a1 % 2^32 &&& notU32 (O_RDONLY ||| O_CLOEXEC ||| O_NOCTTY ||| O_NONBLOCK) = 0
      · rw [if_pos hflags]
        exact runs_loadJset_fall hflags (fun a3' => runs_allow _ _ a3') a''
      · rw [if_neg hflags]
        refine runs_loadJset_taken hflags ?_ a''
        intro a3'
        rw [ioctlBlk]
        refine runs_loadJeq_skip (by simp only [seccompLoad_zero, seccompLoad_nrOff, seccompLoad_four, seccompLoad_arg0Off, seccompLoad_arg1Off]; decide) ?_ a3'
        intro a4'
        refine runs_condTable_skip _ _ (by simp only [seccompLoad_zero, seccompLoad_nrOff, seccompLoad_four, seccompLoad_arg0Off, seccompLoad_arg1Off]; decide) ?_ a4'
        refine runs_condSock_skip _ (by simp only [seccompLoad_zero, seccompLoad_nrOff, seccompLoad_four, seccompLoad_arg0Off, seccompLoad_arg1Off]; decide) (by simp only [seccompLoad_zero, seccompLoad_nrOff, seccompLoad_four, seccompLoad_arg0Off, seccompLoad_arg1Off]; decide) ?_
        exact runs_cloneTail_kill (by simp only [seccompLoad_zero, seccompLoad_nrOff, seccompLoad_four, seccompLoad_arg0Off, seccompLoad_arg1Off]; decide)
  · refine seccompEval_filterNew ?_
    cases hrf : hasFileReadAll profile
    · exact runs_blocks_kill_noRead _ _ _ (by simp only [seccompLoad_zero, seccompLoad_nrOff, seccompLoad_four, seccompLoad_arg0Off, seccompLoad_arg1Off]; decide) (by simp only [seccompLoad_zero, seccompLoad_nrOff, seccompLoad_four, seccompLoad_arg0Off, seccompLoad_arg1Off]; decide) (by simp only [seccompLoad_zero, seccompLoad_nrOff, seccompLoad_four, seccompLoad_arg0Off, seccompLoad_arg1Off]; decide)
        (by simp only [seccompLoad_zero, seccompLoad_nrOff, seccompLoad_four, seccompLoad_arg0Off, seccompLoad_arg1Off]; decide) (by simp only [seccompLoad_zero, seccompLoad_nrOff, seccompLoad_four, seccompLoad_arg0Off, seccompLoad_arg1Off]; decide) (by simp only [seccompLoad_zero, seccompLoad_nrOff, seccompLoad_four, seccompLoad_arg0Off, seccompLoad_arg1Off]; decide) (by simp only [seccompLoad_zero, seccompLoad_nrOff, seccompLoad_four, seccompLoad_arg0Off, seccompLoad_arg1Off]; decide) (by simp only [seccompLoad_zero, seccompLoad_nrOff, seccompLoad_four, seccompLoad_arg0Off, seccompLoad_arg1Off]; decide)
    · rw [Filter.blocksB]
      simp only [List.append_assoc]
      refine runs_prologue_ok (by simp only [seccompLoad_zero, seccompLoad_nrOff, seccompLoad_four, seccompLoad_arg0Off, seccompLoad_arg1Off]; decide) ?_ 0
      refine runs_allowTable_skip _ (by simp only [seccompLoad_zero, seccompLoad_nrOff, seccompLoad_four, seccompLoad_arg0Off, seccompLoad_arg1Off]; decide) ?_
      refine runs_condTable_skip _ _ (by simp only [seccompLoad_zero, seccompLoad_nrOff, seccompLoad_four, seccompLoad_arg0Off, seccompLoad_arg1Off]; decide) ?_
      intro a
      rw [if_pos (by trivial), List.append_assoc, List.append_assoc]
      refine runs_allowTable_skip _ (by simp only [seccompLoad_zero, seccompLoad_nrOff, seccompLoad_four, seccompLoad_arg0Off, seccompLoad_arg1Off]; decide) ?_ a
      intro a'
      rw [openBlk]
      refine runs_loadJeq_skip (by simp only [seccompLoad_zero, seccompLoad_nrOff, seccompLoad_four, seccompLoad_arg0Off, seccompLoad_arg1Off]; decide) ?_ a'
      intro a''
      rw [ioctlBlk]
      refine runs_loadJeq_enter (by simp only [seccompLoad_zero, seccompLoad_nrOff, seccompLoad_four, seccompLoad_arg0Off, seccompLoad_arg1Off]; decide) ?_ a''
      intro a3'
      by_cases hfio : a1 % 2^32 = FIONREAD
      · rw [if_pos hfio]
        exact runs_loadJeq_enter ((seccompLoad_arg1Off _ _ _ _ _ _ _ _).trans hfio)
          (fun a4' => runs_allow _ _ a4') a3'
      · rw [if_neg hfio]
        refine runs_loadJeq_skip
          (fun hc => hfio ((seccompLoad_arg1Off _ _ _ _ _ _ _ _).symm.trans hc)) ?_ a3'
        intro a4'
        refine runs_condTable_skip _ _ (by simp only [seccompLoad_zero, seccompLoad_nrOff, seccompLoad_four, seccompLoad_arg0Off, seccompLoad_arg1Off]; decide) ?_ a4'
        refine runs_condSock_skip _ (by simp only [seccompLoad_zero, seccompLoad_nrOff, seccompLoad_four, seccompLoad_arg0Off, seccompLoad_arg1Off]; decide) (by simp only [seccompLoad_zero, seccompLoad_nrOff, seccompLoad_four, seccompLoad_arg0Off, seccompLoad_arg1Off]; decide) ?_
        exact runs_cloneTail_kill (by simp only [seccompLoad_zero, seccompLoad_nrOff, seccompLoad_four, seccompLoad_arg0Off, seccompLoad_arg1Off]; decide)

/-- C2.  With a matching architecture word, `clone` (56) is allowed iff the
low 32 bits of argument 0 equal exactly the thread-creation mask
`0x003d0f00`, and `fork` (57) is always killed, for every profile. -/
theorem c2_clone_exact_flags (profile : Profile) (a0 a1 a2 a3 a4 a5 : Nat) :
    CLONE_THREAD_FLAGS = 0x003d0f00 ∧
    seccompEval (Filter.new profile) (SeccompData.mk NR_clone ARCH_NR a0 a1 a2 a3 a4 a5) =
      some (if a0 % 2^32 = CLONE_THREAD_FLAGS then SECCOMP_RET_ALLOW
            else SECCOMP_RET_KILL) ∧
    seccompEval (Filter.new profile) (SeccompData.mk 57 ARCH_NR a0 a1 a2 a3 a4 a5) =
      some SECCOMP_RET_KILL := by
  refine ⟨by decide, ?_, ?_⟩
  · refine seccompEval_filterNew ?_
    rw [Filter.blocksB]
    simp only [List.append_assoc]
    refine runs_prologue_ok (by simp only [seccompLoad_zero, seccompLoad_nrOff, seccompLoad_four, seccompLoad_arg0Off, seccompLoad_arg1Off]; decide) ?_ 0
    refine runs_allowTable_skip _ (by simp only [seccompLoad_zero, seccompLoad_nrOff, seccompLoad_four, seccompLoad_arg0Off, seccompLoad_arg1Off]; decide) ?_
    refine runs_condTable_skip _ _ (by simp only [seccompLoad_zero, seccompLoad_nrOff, seccompLoad_four, seccompLoad_arg0Off, seccompLoad_arg1Off]; decide) ?_
    refine runs_condRead_skip _ (by simp only [seccompLoad_zero, seccompLoad_nrOff, seccompLoad_four, seccompLoad_arg0Off, seccompLoad_arg1Off]; decide) (by simp only [seccompLoad_zero, seccompLoad_nrOff, seccompLoad_four, seccompLoad_arg0Off, seccompLoad_arg1Off]; decide) (by simp only [seccompLoad_zero, seccompLoad_nrOff, seccompLoad_four, seccompLoad_arg0Off, seccompLoad_arg1Off]; decide) ?_
    refine runs_condTable_skip _ _ (by simp only [seccompLoad_zero, seccompLoad_nrOff, seccompLoad_four, seccompLoad_arg0Off, seccompLoad_arg1Off]; decide) ?_
    refine runs_condSock_skip _ (by simp only [seccompLoad_zero, seccompLoad_nrOff, seccompLoad_four, seccompLoad_arg0Off, seccompLoad_arg1Off]; decide) (by simp only [seccompLoad_zero, seccompLoad_nrOff, seccompLoad_four, seccompLoad_arg0Off, seccompLoad_arg1Off]; decide) ?_
    exact runs_cloneTail_clone (by simp only [seccompLoad_zero, seccompLoad_nrOff, seccompLoad_four, seccompLoad_arg0Off, seccompLoad_arg1Off]; decide)
  · refine seccompEval_filterNew ?_
    exact runs_blocks_kill _ _ _ _ (by simp only [seccompLoad_zero, seccompLoad_nrOff, seccompLoad_four, seccompLoad_arg0Off, seccompLoad_arg1Off]; decide) (by simp only [seccompLoad_zero, seccompLoad_nrOff, seccompLoad_four, seccompLoad_arg0Off, seccompLoad_arg1Off]; decide) (by simp only [seccompLoad_zero, seccompLoad_nrOff, seccompLoad_four, seccompLoad_arg0Off, seccompLoad_arg1Off]; decide) (by simp only [seccompLoad_zero, seccompLoad_nrOff, seccompLoad_four, seccompLoad_arg0Off, seccompLoad_arg1Off]; decide)
      (by simp only [seccompLoad_zero, seccompLoad_nrOff, seccompLoad_four, seccompLoad_arg0Off, seccompLoad_arg1Off]; decide) (by simp only [seccompLoad_zero, seccompLoad_nrOff, seccompLoad_four, seccompLoad_arg0Off, seccompLoad_arg1Off]; decide) (by simp only [seccompLoad_zero, seccompLoad_nrOff, seccompLoad_four, seccompLoad_arg0Off, seccompLoad_arg1Off]; decide) (by simp only [seccompLoad_zero, seccompLoad_nrOff, seccompLoad_four, seccompLoad_arg0Off, seccompLoad_arg1Off]; decide) (by simp only [seccompLoad_zero, seccompLoad_nrOff, seccompLoad_four, seccompLoad_arg0Off, seccompLoad_arg1Off]; decide) (by simp only [seccompLoad_zero, seccompLoad_nrOff, seccompLoad_four, seccompLoad_arg0Off, seccompLoad_arg1Off]; decide) (by simp only [seccompLoad_zero, seccompLoad_nrOff, seccompLoad_four, seccompLoad_arg0Off, seccompLoad_arg1Off]; decide)

/-- C3 (supporting theorem for the code bug).  The source defines
`NR_set_robust_list = 0`, so syscall 273 — `set_robust_list` on x86_64 —
is matched by no rule and killed for every profile, although the spec's
always-allowed table includes `set_robust_list`. -/
theorem c3_set_robust_list_273_killed (profile : Profile) (a0 a1 a2 a3 a4 a5 : Nat) :
    seccompEval (Filter.new profile) (SeccompData.mk 273 ARCH_NR a0 a1 a2 a3 a4 a5) =
      some SECCOMP_RET_KILL ∧
    NR_set_robust_list = 0 := by
  refine ⟨?_, rfl⟩
  refine seccompEval_filterNew ?_
  exact runs_blocks_kill _ _ _ _ (by simp only [seccompLoad_zero, seccompLoad_nrOff, seccompLoad_four, seccompLoad_arg0Off, seccompLoad_arg1Off]; decide) (by simp only [seccompLoad_zero, seccompLoad_nrOff, seccompLoad_four, seccompLoad_arg0Off, seccompLoad_arg1Off]; decide) (by simp only [seccompLoad_zero, seccompLoad_nrOff, seccompLoad_four, seccompLoad_arg0Off, seccompLoad_arg1Off]; decide) (by simp only [seccompLoad_zero, seccompLoad_nrOff, seccompLoad_four, seccompLoad_arg0Off, seccompLoad_arg1Off]; decide)
    (by simp only [seccompLoad_zero, seccompLoad_nrOff, seccompLoad_four, seccompLoad_arg0Off, seccompLoad_arg1Off]; decide) (by simp only [seccompLoad_zero, seccompLoad_nrOff, seccompLoad_four, seccompLoad_arg0Off, seccompLoad_arg1Off]; decide) (by simp only [seccompLoad_zero, seccompLoad_nrOff, seccompLoad_four, seccompLoad_arg0Off, seccompLoad_arg1Off]; decide) (by simp only [seccompLoad_zero, seccompLoad_nrOff, seccompLoad_four, seccompLoad_arg0Off, seccompLoad_arg1Off]; decide) (by simp only [seccompLoad_zero, seccompLoad_nrOff, seccompLoad_four, seccompLoad_arg0Off, seccompLoad_arg1Off]; decide) (by simp only [seccompLoad_zero, seccompLoad_nrOff, seccompLoad_four, seccompLoad_arg0Off, seccompLoad_arg1Off]; decide) (by simp only [seccompLoad_zero, seccompLoad_nrOff, seccompLoad_four, seccompLoad_arg0Off, seccompLoad_arg1Off]; decide)


theorem blocksB_take3 :
    ∀ m f n s : Bool, (Filter.blocksB m f n s).take 3 = FILTER_PROLOGUE := by decide

theorem blocksB_getLast :
    ∀ m f n s : Bool, (Filter.blocksB m f n s).getLast? = some KILL_PROCESS := by decide

theorem blocksB_offsets :
    ∀ m f n s : Bool, (Filter.blocksB m f n s).all
      (fun i => decide (i.jt ≤ 255) && decide (i.jf ≤ 255)) = true := by decide

theorem blocksB_ret_values :
    ∀ m f n s : Bool, (Filter.blocksB m f n s).all
      (fun i => (i.code != RET + K) ||
        ((i.k == SECCOMP_RET_KILL) || (i.k == SECCOMP_RET_ALLOW))) = true := by decide

/-- C5.  Every compiled program begins with the three-instruction
architecture check and ends with a kill return; every jump offset fits in
a byte, and the builder's `as u8` casts never truncate (the program equals
the block form carrying untruncated offsets); every evaluation terminates
at a return whose value is allow or kill; and a record whose architecture
word differs from the build architecture is killed. -/
theorem c5_program_invariants (profile : Profile) :
    (Filter.new profile).take 3 = FILTER_PROLOGUE ∧
    (Filter.new profile).getLast? = some KILL_PROCESS ∧
    (∀ i ∈ Filter.new profile, i.jt ≤ 255 ∧ i.jf ≤ 255) ∧
    Filter.new profile =
      Filter.blocksB (hasFileReadMetadata profile) (hasFileReadAll profile)
        (hasNetworkOutbound profile) (hasSystemSocket profile) ∧
    (∀ d : SeccompData,
      seccompEval (Filter.new profile) d = some SECCOMP_RET_ALLOW ∨
      seccompEval (Filter.new profile) d = some SECCOMP_RET_KILL) ∧
    (∀ d : SeccompData, d.arch % 2^32 ≠ ARCH_NR →
      seccompEval (Filter.new profile) d = some SECCOMP_RET_KILL) := by
  refine ⟨?_, ?_, ?_, filterNew_eq_blocks profile, ?_, ?_⟩
  · rw [filterNew_eq_blocks]
    exact blocksB_take3 _ _ _ _
  · rw [filterNew_eq_blocks]
    exact blocksB_getLast _ _ _ _
  · intro i hi
    rw [filterNew_eq_blocks] at hi
    have h := List.all_eq_true.mp (blocksB_offsets _ _ _ _) i hi
    simp only [Bool.and_eq_true, decide_eq_true_eq] at h
    exact h
  · intro d
    rw [filterNew_eq_blocks]
    have hw := wfB_blocksB (hasFileReadMetadata profile) (hasFileReadAll profile)
      (hasNetworkOutbound profile) (hasSystemSocket profile)
    have hp := blocksB_length_pos (hasFileReadMetadata profile) (hasFileReadAll profile)
      (hasNetworkOutbound profile) (hasSystemSocket profile)
    have ht := bpfRun_total hw d
      ((Filter.blocksB (hasFileReadMetadata profile) (hasFileReadAll profile)
        (hasNetworkOutbound profile) (hasSystemSocket profile)).length + 1) 0 hp (by omega)
    obtain ⟨r, hr⟩ := Option.isSome_iff_exists.mp ht
    obtain ⟨i, hmem, hcode, hk⟩ := bpfRun_ret_mem hr
    have hv := List.all_eq_true.mp (blocksB_ret_values _ _ _ _) i hmem
    simp only [hcode, bne_self_eq_false, Bool.false_or, Bool.or_eq_true,
      beq_iff_eq] at hv
    have heval : seccompEval
        (Filter.blocksB (hasFileReadMetadata profile) (hasFileReadAll profile)
          (hasNetworkOutbound profile) (hasSystemSocket profile)) d = some r := hr
    cases hv with
    | inl h => exact Or.inr (by rw [heval, ← hk, h])
    | inr h => exact Or.inl (by rw [heval, ← hk, h])
  · intro d harch
    rw [filterNew_eq_blocks]
    refine seccompEval_eq (wfB_blocksB _ _ _ _) (blocksB_length_pos _ _ _ _) ?_
    rw [Filter.blocksB]
    simp only [List.append_assoc]
    exact runs_prologue_kill harch 0

/-- Witness for C5: applying the invariants at a concrete profile and a
record with architecture word 0 (≠ AUDIT_ARCH_X86_64). -/
theorem c5_program_invariants_witness :
    seccompEval (Filter.new (Profile.new [])) (SeccompData.mk 0 0 0 0 0 0 0 0) =
      some SECCOMP_RET_KILL :=
  (c5_program_invariants (Profile.new [])).2.2.2.2.2
    (SeccompData.mk 0 0 0 0 0 0 0 0) (by decide)

/-- C4 (supporting theorem for the code bug): `Profile::new` in the source
is infallible — it returns a bare `Profile` wrapping exactly the requested
operations and can never produce a `PolicyError`, although the repo's own
test (src/tests/file-read-metadata.rs) unwraps its result and the spec
requires unsupported operations to be rejected. -/
theorem c4_profile_new_infallible (allowed_operations : List Operation) :
    Profile.new allowed_operations = Profile.mk allowed_operations ∧
    (Profile.new allowed_operations).allowedOperations = allowed_operations :=
  ⟨rfl, rfl⟩

/-- C6 counterexample: the fourth argument of the `PR_SET_SECCOMP` `prctl`
is the source's literal `-1`, not `0` as the claim states. -/
theorem c6_seccomp_prctl_arg4_counterexample :
    (Filter.activate (fun _ => 0) []).2 =
      [PrctlCall.prctlInt 38 1 0 0 0,
       PrctlCall.prctlProg 22 2 (sock_fprog.mk 0 []) (-1) 0] ∧
    (-1 : Int) ≠ 0 := by
  exact ⟨rfl, by decide⟩

/-- C6 amended.  `Filter::activate` first calls
`prctl(PR_SET_NO_NEW_PRIVS, 1, 0, 0, 0)`; only if that returns 0 does it
call `prctl(PR_SET_SECCOMP, SECCOMP_MODE_FILTER, &sock_fprog, -1, 0)`
(fourth argument `-1`, not `0`); it returns `Ok(())` iff both calls return
0, and on failure returns the failing call's result without attempting the
subsequent call. -/
theorem c6_activate_order (env : Nat → Int) (program : List sock_filter) :
    Filter.activate env program =
      if env 0 ≠ 0 then
        (Except.error (env 0), [PrctlCall.prctlInt PR_SET_NO_NEW_PRIVS 1 0 0 0])
      else if env 1 = 0 then
        (Except.ok (),
         [PrctlCall.prctlInt PR_SET_NO_NEW_PRIVS 1 0 0 0,
          PrctlCall.prctlProg PR_SET_SECCOMP SECCOMP_MODE_FILTER
            (sock_fprog.mk (program.length % 2^16) program) (-1) 0])
      else
        (Except.error (env 1),
         [PrctlCall.prctlInt PR_SET_NO_NEW_PRIVS 1 0 0 0,
          PrctlCall.prctlProg PR_SET_SECCOMP SECCOMP_MODE_FILTER
            (sock_fprog.mk (program.length % 2^16) program) (-1) 0]) := by
  by_cases h0 : env 0 ≠ 0
  · simp [Filter.activate, h0]
  · by_cases h1 : env 1 = 0 <;> simp [Filter.activate, h0, h1]

/-- C9.  `Namespace::new` performs exactly one `unshare`, with
`CLONE_NEWUSER|CLONE_NEWNS|CLONE_NEWIPC|CLONE_NEWUTS|CLONE_FS`, OR-ed with
`CLONE_NEWNET` exactly when the profile contains no `NetworkOutbound`
operation. -/
theorem c9_unshare_flags (env : Env) (profile : Profile) (s : KSt) :
    (Namespace.new env profile s).2.trace =
      s.trace ++ [KernelCall.unshare
        (if hasNetworkOutbound profile then 0x1C020200 else 0x5C020200)] ∧
    (0x1C020200 : Nat) =
      (CLONE_NEWUSER ||| CLONE_NEWNS ||| CLONE_NEWIPC ||| CLONE_NEWUTS ||| CLONE_FS) ∧
    (0x5C020200 : Nat) =
      (CLONE_NEWUSER ||| CLONE_NEWNS ||| CLONE_NEWIPC ||| CLONE_NEWUTS ||| CLONE_FS |||
        CLONE_NEWNET) := by
  refine ⟨?_, by decide, by decide⟩
  have hfl : Namespace.flags profile =
      (if hasNetworkOutbound profile then 0x1C020200 else 0x5C020200) := by
    cases hn : hasNetworkOutbound profile <;> simp only [Namespace.flags, hn] <;> decide
  rw [Namespace.new]
  by_cases hr : env.ret s.idx ≠ 0 <;> simp [kbind, kstep, kcall, kpure, hr, hfl]

theorem populate_append (env : Env) (jailDir : OldPath) :
    ∀ (l1 l2 : List Operation) (s : KSt),
      ChrootJail.populate env jailDir (l1 ++ l2) s =
        (match ChrootJail.populate env jailDir l1 s with
         | (Except.ok _, s') => ChrootJail.populate env jailDir l2 s'
         | (Except.error e, s') => (Except.error e, s'))
  | [], l2, s => by simp [ChrootJail.populate, kpure]
  | op :: rest, l2, s => by
    cases op with
    | FileReadAll pat =>
      cases pat with
      | Literal path =>
        simp only [List.cons_append, ChrootJail.populate, kbind]
        rcases hbm : ChrootJail.bind_mount env jailDir path s with ⟨r, s'⟩
        cases r with
        | ok a => simp [populate_append env jailDir rest l2 s']
        | error e => simp
      | Subpath path =>
        simp only [List.cons_append, ChrootJail.populate, kbind]
        rcases hbm : ChrootJail.bind_mount env jailDir path s with ⟨r, s'⟩
        cases r with
        | ok a => simp [populate_append env jailDir rest l2 s']
        | error e => simp
    | FileReadMetadata pat =>
      cases pat with
      | Literal path =>
        simp only [List.cons_append, ChrootJail.populate, kbind]
        rcases hbm : ChrootJail.bind_mount env jailDir path s with ⟨r, s'⟩
        cases r with
        | ok a =>
          simp only []
          rcases hdr : ChrootJail.disallow_reading env jailDir path s' with ⟨r2, s''⟩
          cases r2 with
          | ok b => simp [populate_append env jailDir rest l2 s'']
          | error e => simp
        | error e => simp
      | Subpath path =>
        simp only [List.cons_append, ChrootJail.populate, kbind]
        rcases hbm : ChrootJail.bind_mount env jailDir path s with ⟨r, s'⟩
        cases r with
        | ok a =>
          simp only []
          rcases hdr : ChrootJail.disallow_reading env jailDir path s' with ⟨r2, s''⟩
          cases r2 with
          | ok b => simp [populate_append env jailDir rest l2 s'']
          | error e => simp
        | error e => simp
    | NetworkOutbound pat =>
      simp only [List.cons_append, ChrootJail.populate]
      exact populate_append env jailDir rest l2 s
    | SystemInfoRead =>
      simp only [List.cons_append, ChrootJail.populate]
      exact populate_append env jailDir rest l2 s
    | SystemSocket =>
      simp only [List.cons_append, ChrootJail.populate]
      exact populate_append env jailDir rest l2 s
    | PlatformSpecific op =>
      simp only [List.cons_append, ChrootJail.populate]
      exact populate_append env jailDir rest l2 s

theorem populate_neutral (env : Env) (jailDir : OldPath) (x : Operation)
    (hx : x = Operation.SystemInfoRead ∨ ∃ po, x = Operation.PlatformSpecific po)
    (ops : List Operation) (s : KSt) :
    ChrootJail.populate env jailDir (x :: ops) s =
      ChrootJail.populate env jailDir ops s := by
  rcases hx with rfl | ⟨po, rfl⟩ <;> simp [ChrootJail.populate]

theorem queries_neutral (x : Operation)
    (hx : x = Operation.SystemInfoRead ∨ ∃ po, x = Operation.PlatformSpecific po)
    (l1 l2 : List Operation) :
    hasFileReadMetadata (Profile.mk (l1 ++ x :: l2)) =
      hasFileReadMetadata (Profile.mk (l1 ++ l2)) ∧
    hasFileReadAll (Profile.mk (l1 ++ x :: l2)) =
      hasFileReadAll (Profile.mk (l1 ++ l2)) ∧
    hasNetworkOutbound (Profile.mk (l1 ++ x :: l2)) =
      hasNetworkOutbound (Profile.mk (l1 ++ l2)) ∧
    hasSystemSocket (Profile.mk (l1 ++ x :: l2)) =
      hasSystemSocket (Profile.mk (l1 ++ l2)) := by
  rcases hx with rfl | ⟨po, rfl⟩ <;>
    simp [hasFileReadMetadata, hasFileReadAll, hasNetworkOutbound, hasSystemSocket,
      Profile.allowedOperations, List.any_append, List.any_cons]

/-- C10.  The compiled filter depends only on which of the four operation
kinds occur in the profile, never on the patterns inside them; and adding
or removing a `SystemInfoRead` or `PlatformSpecific` operation changes
neither the filter program nor the jail builder's filesystem actions. -/
theorem c10_filter_depends_only_on_kinds :
    (∀ p q : Profile,
      hasFileReadMetadata p = hasFileReadMetadata q →
      hasFileReadAll p = hasFileReadAll q →
      hasNetworkOutbound p = hasNetworkOutbound q →
      hasSystemSocket p = hasSystemSocket q →
      Filter.new p = Filter.new q) ∧
    (∀ (l1 l2 : List Operation) (x : Operation),
      (x = Operation.SystemInfoRead ∨ ∃ po, x = Operation.PlatformSpecific po) →
      Filter.new (Profile.mk (l1 ++ x :: l2)) = Filter.new (Profile.mk (l1 ++ l2)) ∧
      ∀ (env : Env) (s : KSt),
        ChrootJail.new env (Profile.mk (l1 ++ x :: l2)) s =
          ChrootJail.new env (Profile.mk (l1 ++ l2)) s) := by
  constructor
  · intro p q h1 h2 h3 h4
    rw [Filter.new, Filter.new, h1, h2, h3, h4]
  · intro l1 l2 x hx
    have hq := queries_neutral x hx l1 l2
    constructor
    · rw [Filter.new, Filter.new, hq.1, hq.2.1, hq.2.2.1, hq.2.2.2]
    · intro env s
      have hpop : ∀ s' : KSt,
          ChrootJail.populate env env.jailPath (l1 ++ x :: l2) s' =
            ChrootJail.populate env env.jailPath (l1 ++ l2) s' := by
        intro s'
        rw [populate_append, populate_append]
        rcases h1 : ChrootJail.populate env env.jailPath l1 s' with ⟨r, s''⟩
        cases r <;> simp [populate_neutral env env.jailPath x hx]
      have hpopf : ChrootJail.populate env env.jailPath (l1 ++ x :: l2) =
          ChrootJail.populate env env.jailPath (l1 ++ l2) := funext hpop
      simp only [ChrootJail.new, Profile.allowedOperations, hpopf]

/-- Witness for C10: inserting `SystemInfoRead` leaves the filter program
unchanged. -/
theorem c10_filter_depends_only_on_kinds_witness :
    Filter.new (Profile.mk ([] ++ Operation.SystemInfoRead :: [])) =
      Filter.new (Profile.mk ([] ++ [])) :=
  ((c10_filter_depends_only_on_kinds).2 [] [] Operation.SystemInfoRead (Or.inl rfl)).1


/-! ## Well-behavedness of the jail builder -/

theorem WB_kpure (env : Env) {α : Type} (a : α) : WB env (kpure a) := by
  intro s hs
  simp only [kpure]
  refine ⟨hs, ⟨[], by simp⟩, ?_, ?_, ?_⟩
  · intro j h1 h2
    exact absurd h1 (by omega)
  · intro a' _ j h1 h2
    exact absurd h1 (by omega)
  · intro e he
    simp at he

theorem WB_kstep (env : Env) (c : KernelCall) (errOf : Int → Int) :
    WB env (kstep env c errOf) := by
  intro s hs
  simp only [kstep, kcall]
  by_cases hr : env.ret s.idx ≠ 0
  · rw [if_pos hr]
    refine ⟨by simp [hs], ⟨[c], rfl⟩, ?_, ?_, ?_⟩
    · intro j h1 h2
      simp only at h2
      exact absurd h1 (by omega)
    · intro a ha
      simp at ha
    · intro e he
      simp only
      exact ⟨by omega, by simpa using hr⟩
  · rw [if_neg hr]
    rw [not_ne_iff] at hr
    refine ⟨by simp [hs], ⟨[c], rfl⟩, ?_, ?_, ?_⟩
    · intro j h1 h2
      simp only at h2
      exact absurd h1 (by omega)
    · intro a _ j h1 h2
      simp only at h2
      have : j = s.idx := by omega
      rw [this]
      exact hr
    · intro e he
      simp at he

theorem WB_kbind {env : Env} {α β : Type} {f : KSt → Except Int α × KSt}
    {g : α → KSt → Except Int β × KSt} (hf : WB env f) (hg : ∀ a, WB env (g a)) :
    WB env (kbind f g) := by
  intro s hs
  rcases hfs : f s with ⟨rf, s1⟩
  have H := hf s hs
  rw [hfs] at H
  obtain ⟨h1, ⟨t1, ht1⟩, h3, h4, h5⟩ := H
  cases rf with
  | error e =>
    simp only [kbind, hfs]
    refine ⟨h1, ⟨t1, ht1⟩, h3, ?_, ?_⟩
    · intro a ha
      simp at ha
    · intro e' _
      exact h5 e rfl
  | ok a =>
    simp only [kbind, hfs]
    have hidx1 : s1.idx = s.idx + t1.length := by
      rw [h1, ht1, List.length_append, hs]
    have H2 := (hg a) s1 h1
    obtain ⟨g1, ⟨t2, ht2⟩, g3, g4, g5⟩ := H2
    have hidx2 : s1.idx ≤ (g a s1).2.idx := by
      have : (g a s1).2.idx = s1.idx + t2.length := by
        rw [g1, ht2, List.length_append, h1]
      omega
    refine ⟨g1, ⟨t1 ++ t2, by rw [ht2, ht1, List.append_assoc]⟩, ?_, ?_, ?_⟩
    · intro j hj hlt
      by_cases hj1 : j < s1.idx
      · exact h4 a rfl j hj hj1
      · exact g3 j (by omega) hlt
    · intro b hb j hj hlt
      by_cases hj1 : j < s1.idx
      · exact h4 a rfl j hj hj1
      · exact g4 b hb j (by omega) hlt
    · intro e he
      obtain ⟨hlt, hne⟩ := g5 e he
      exact ⟨by omega, hne⟩

theorem WB_kmapErr {env : Env} {α : Type} {f : KSt → Except Int α × KSt}
    (hf : WB env f) (remap : Int → Int) : WB env (kmapErr f remap) := by
  intro s hs
  rcases hfs : f s with ⟨rf, s1⟩
  have H := hf s hs
  rw [hfs] at H
  obtain ⟨h1, h2, h3, h4, h5⟩ := H
  cases rf with
  | error e =>
    simp only [kmapErr, hfs]
    refine ⟨h1, h2, h3, ?_, ?_⟩
    · intro a ha
      simp at ha
    · intro e' _
      exact h5 e rfl
  | ok a =>
    simp only [kmapErr, hfs]
    refine ⟨h1, h2, h3, ?_, ?_⟩
    · intro b hb
      exact h4 a rfl
    · intro e he
      simp at he

theorem WB_ite (env : Env) {α : Type} (b : Bool) (f g : KSt → Except Int α × KSt)
    (hf : WB env f) (hg : WB env g) : WB env (if b then f else g) := by
  cases b
  · simpa using hg
  · simpa using hf

theorem WB_mkdirLoop (env : Env) :
    ∀ (comps : List String) (dest : OldPath), WB env (mkdirLoop env comps dest)
  | [], dest => WB_kpure env dest
  | c :: cs, dest =>
    WB_kbind (WB_kstep env (KernelCall.mkdir (dest.pushComp c) 511) (fun _ => -1))
      (fun _ => WB_mkdirLoop env cs (dest.pushComp c))

theorem WB_bind_mount (env : Env) (jailDir source_path : OldPath) :
    WB env (ChrootJail.bind_mount env jailDir source_path) := by
  rw [ChrootJail.bind_mount]
  refine WB_kbind (WB_mkdirLoop env _ _) ?_
  intro destination
  refine WB_kbind ?_ ?_
  · cases jailDir.components.getLast? with
    | none => exact WB_kpure env destination
    | some lc =>
      refine WB_kbind (WB_kstep env _ _) ?_
      intro u
      refine WB_kbind ?_ ?_
      · exact WB_ite env _ _ _ (WB_kstep env _ _) (WB_kstep env _ _)
      · intro u2
        exact WB_kpure env _
  · intro destination2
    exact WB_kstep env _ _

theorem WB_disallow_reading (env : Env) (jailDir source_path : OldPath) :
    WB env (ChrootJail.disallow_reading env jailDir source_path) :=
  WB_kstep env _ _

theorem WB_populate (env : Env) (jailDir : OldPath) :
    ∀ ops : List Operation, WB env (ChrootJail.populate env jailDir ops)
  | [] => WB_kpure env ()
  | Operation.FileReadAll (PathPattern.Literal path) :: rest =>
    WB_kbind (WB_bind_mount env jailDir path)
      (fun _ => WB_populate env jailDir rest)
  | Operation.FileReadAll (PathPattern.Subpath path) :: rest =>
    WB_kbind (WB_bind_mount env jailDir path)
      (fun _ => WB_populate env jailDir rest)
  | Operation.FileReadMetadata (PathPattern.Literal path) :: rest =>
    WB_kbind (WB_bind_mount env jailDir path)
      (fun _ => WB_kbind (WB_disallow_reading env jailDir path)
        (fun _ => WB_populate env jailDir rest))
  | Operation.FileReadMetadata (PathPattern.Subpath path) :: rest =>
    WB_kbind (WB_bind_mount env jailDir path)
      (fun _ => WB_kbind (WB_disallow_reading env jailDir path)
        (fun _ => WB_populate env jailDir rest))
  | Operation.NetworkOutbound _ :: rest => WB_populate env jailDir rest
  | Operation.SystemInfoRead :: rest => WB_populate env jailDir rest
  | Operation.SystemSocket :: rest => WB_populate env jailDir rest
  | Operation.PlatformSpecific _ :: rest => WB_populate env jailDir rest

theorem WB_ChrootJail_new (env : Env) (profile : Profile) :
    WB env (ChrootJail.new env profile) :=
  WB_kbind (WB_kstep env _ _)
    (fun _ => WB_kbind (WB_kstep env _ _)
      (fun _ => WB_kbind (WB_populate env _ _) (fun _ => WB_kpure env _)))

theorem WB_ChrootJail_enter (env : Env) (jailDir : OldPath) :
    WB env (ChrootJail.enter env jailDir) :=
  WB_kbind (WB_kstep env _ _) (fun _ => WB_kstep env _ _)

theorem WB_Namespace_new (env : Env) (profile : Profile) :
    WB env (Namespace.new env profile) :=
  WB_kbind (WB_kstep env _ _) (fun _ => WB_kpure env _)

theorem WB_Namespace_init (env : Env) (ns : NamespaceData) :
    WB env (Namespace.init env ns) :=
  WB_kbind (WB_kstep env _ _)
    (fun _ => WB_kbind (WB_kstep env _ _) (fun _ => WB_kstep env _ _))

theorem WB_switch_user (env : Env) : WB env (switch_to_unprivileged_user env) :=
  WB_kbind (WB_kstep env _ _) (fun _ => WB_kstep env _ _)

theorem WB_drop_capabilities (env : Env) : WB env (drop_capabilities env) :=
  WB_kstep env _ _

theorem WB_namespaceActivate (env : Env) (profile : Profile) :
    WB env (namespaceActivate env profile) :=
  WB_kbind (WB_Namespace_new env profile)
    (fun ns => WB_kbind (WB_kmapErr (WB_Namespace_init env ns) _)
      (fun _ => WB_kbind (WB_switch_user env)
        (fun _ => WB_kbind (WB_ChrootJail_new env profile)
          (fun jail => WB_kbind (WB_ChrootJail_enter env jail)
            (fun _ => WB_drop_capabilities env)))))


/-! ## The all-success run of the jail builder -/

theorem mkdirLoopTrace_length :
    ∀ (comps : List String) (dest : OldPath),
      (mkdirLoopTrace comps dest).length = comps.length
  | [], _ => rfl
  | c :: cs, dest => by simp [mkdirLoopTrace, mkdirLoopTrace_length cs]

theorem kstep_succ {env : Env} (hz : ∀ i, env.ret i = 0) (c : KernelCall)
    (errOf : Int → Int) (s : KSt) :
    kstep env c errOf s = (Except.ok (), KSt.mk (s.idx + 1) (s.trace ++ [c])) := by
  simp [kstep, kcall, hz s.idx]

theorem mkdirLoop_succ {env : Env} (hz : ∀ i, env.ret i = 0) :
    ∀ (comps : List String) (dest : OldPath) (s : KSt),
      mkdirLoop env comps dest s =
        (Except.ok (pushComps dest comps),
         KSt.mk (s.idx + comps.length) (s.trace ++ mkdirLoopTrace comps dest))
  | [], dest, s => by simp [mkdirLoop, kpure, pushComps, mkdirLoopTrace]
  | c :: cs, dest, s => by
    simp only [mkdirLoop, kbind, kstep_succ hz]
    rw [mkdirLoop_succ hz cs (dest.pushComp c)]
    simp [pushComps, mkdirLoopTrace] <;> omega

theorem bind_mount_succ {env : Env} (hz : ∀ i, env.ret i = 0)
    (jailDir source_path : OldPath) (s : KSt) :
    ChrootJail.bind_mount env jailDir source_path s =
      (Except.ok (),
       KSt.mk (s.idx + (bindMountTrace env jailDir source_path).length)
         (s.trace ++ bindMountTrace env jailDir source_path)) := by
  rw [ChrootJail.bind_mount, bindMountTrace]
  simp only [kbind, mkdirLoop_succ hz]
  cases hlc : jailDir.components.getLast? with
  | none =>
    simp [kstep_succ hz, kpure, mkdirLoopTrace_length] <;> omega
  | some lc =>
    have hne : jailDir.components ≠ [] := by
      intro h
      rw [h] at hlc
      simp at hlc
    have hlen : 0 < jailDir.components.length := List.length_pos.mpr hne
    by_cases hd : env.isDir source_path <;>
      simp [kstep_succ hz, kpure, kbind, hd, mkdirLoopTrace_length] <;> omega

theorem populate_succ {env : Env} (hz : ∀ i, env.ret i = 0) (jailDir : OldPath) :
    ∀ (ops : List Operation) (s : KSt),
      ChrootJail.populate env jailDir ops s =
        (Except.ok (),
         KSt.mk (s.idx + (populateTrace env jailDir ops).length)
           (s.trace ++ populateTrace env jailDir ops))
  | [], s => by simp [ChrootJail.populate, kpure, populateTrace]
  | Operation.FileReadAll (PathPattern.Literal path) :: rest, s => by
    simp only [ChrootJail.populate, kbind, bind_mount_succ hz]
    rw [populate_succ hz jailDir rest]
    simp [populateTrace] <;> omega
  | Operation.FileReadAll (PathPattern.Subpath path) :: rest, s => by
    simp only [ChrootJail.populate, kbind, bind_mount_succ hz]
    rw [populate_succ hz jailDir rest]
    simp [populateTrace] <;> omega
  | Operation.FileReadMetadata (PathPattern.Literal path) :: rest, s => by
    simp only [ChrootJail.populate, ChrootJail.disallow_reading, kbind,
      bind_mount_succ hz, kstep_succ hz]
    rw [populate_succ hz jailDir rest]
    simp [populateTrace] <;> omega
  | Operation.FileReadMetadata (PathPattern.Subpath path) :: rest, s => by
    simp only [ChrootJail.populate, ChrootJail.disallow_reading, kbind,
      bind_mount_succ hz, kstep_succ hz]
    rw [populate_succ hz jailDir rest]
    simp [populateTrace] <;> omega
  | Operation.NetworkOutbound pat :: rest, s => by
    simp only [ChrootJail.populate]
    rw [populate_succ hz jailDir rest]
    simp [populateTrace]
  | Operation.SystemInfoRead :: rest, s => by
    simp only [ChrootJail.populate]
    rw [populate_succ hz jailDir rest]
    simp [populateTrace]
  | Operation.SystemSocket :: rest, s => by
    simp only [ChrootJail.populate]
    rw [populate_succ hz jailDir rest]
    simp [populateTrace]
  | Operation.PlatformSpecific op :: rest, s => by
    simp only [ChrootJail.populate]
    rw [populate_succ hz jailDir rest]
    simp [populateTrace]

theorem namespaceActivate_succ {env : Env} (hz : ∀ i, env.ret i = 0)
    (profile : Profile) (s : KSt) :
    namespaceActivate env profile s =
      (Except.ok (),
       KSt.mk (s.idx + (fullTrace env profile).length)
         (s.trace ++ fullTrace env profile)) := by
  simp only [namespaceActivate, Namespace.new, Namespace.init,
    switch_to_unprivileged_user, ChrootJail.new, ChrootJail.enter, drop_capabilities,
    kbind, kmapErr, kpure, kstep_succ hz, populate_succ hz]
  simp [fullTrace] <;> omega

/-- C7 (amended).  The jail builder performs its kernel transitions in the
claimed order — on an all-success environment the trace is exactly
`fullTrace`: unshare; the `deny` write to setgroups; the gid-map and
uid-map writes; `setresgid(1,1,1)`; `setresuid(1,1,1)`; temp-dir creation;
the tmpfs mount; the per-operation bind mounts; `chroot`; `chdir(".")`;
the all-zero `capset`.  For every environment, every interaction strictly
before the last one performed succeeded (a failure aborts the sequence at
once), and an error is reported only when the last interaction performed
failed. -/
theorem c7_activate_order_and_abort (profile : Profile) (env : Env) :
    ((∀ i, env.ret i = 0) →
      namespaceActivate env profile KSt.initial =
        (Except.ok (),
         KSt.mk (fullTrace env profile).length (fullTrace env profile))) ∧
    (∀ j, j + 1 < (namespaceActivate env profile KSt.initial).2.trace.length →
      env.ret j = 0) ∧
    (∀ e, (namespaceActivate env profile KSt.initial).1 = Except.error e →
      (namespaceActivate env profile KSt.initial).2.trace ≠ [] ∧
      env.ret ((namespaceActivate env profile KSt.initial).2.trace.length - 1) ≠ 0) := by
  have hwb := WB_namespaceActivate env profile KSt.initial rfl
  obtain ⟨h1, ⟨t, ht⟩, h3, h4, h5⟩ := hwb
  have h0idx : KSt.initial.idx = 0 := rfl
  have h0tr : KSt.initial.trace = [] := rfl
  refine ⟨?_, ?_, ?_⟩
  · intro hz
    simpa [KSt.initial] using namespaceActivate_succ hz profile KSt.initial
  · intro j hj
    exact h3 j (by omega) (by omega)
  · intro e he
    obtain ⟨hlt, hne⟩ := h5 e he
    constructor
    · intro hnil
      rw [hnil] at h1
      simp at h1
      omega
    · rw [← h1]
      exact hne

/-- C8 (supporting theorem for the code bug).  `bind_mount` mirrors the
components of the jail directory itself, not of the source path: for jail
directory `/tmp/gaol0` and `FileReadAll(Literal("/etc/hostname"))`, the
builder creates directory `/tmp/gaol0/tmp` and regular file
`/tmp/gaol0/tmp/gaol0`, and never creates `/tmp/gaol0/etc` or
`/tmp/gaol0/etc/hostname` as the claim requires; the bind mount's target
(the absolute source pushed onto the jail-side path) is the source path
itself. -/
theorem c8_bind_mount_mirrors_jail_dir :
    (ChrootJail.new
      (Env.mk (fun _ => 0) (fun _ => false) (OldPath.mk true ["tmp", "gaol0"]) 1000 1000)
      (Profile.new
        [Operation.FileReadAll (PathPattern.Literal (OldPath.mk true ["etc", "hostname"]))])
      KSt.initial).2.trace =
      [KernelCall.mkdtemp,
       KernelCall.mount "tmpfs" (OldPath.mk true ["tmp", "gaol0"]) "tmpfs" MS_NOATIME,
       KernelCall.mkdir (OldPath.mk true ["tmp", "gaol0", "tmp"]) 511,
       KernelCall.statPath (OldPath.mk true ["etc", "hostname"]),
       KernelCall.createFile (OldPath.mk true ["tmp", "gaol0", "tmp", "gaol0"]),
       KernelCall.mount "/etc/hostname" (OldPath.mk true ["etc", "hostname"]) "bind"
         (MS_MGC_VAL ||| MS_BIND ||| MS_REC)] ∧
    KernelCall.mkdir (OldPath.mk true ["tmp", "gaol0", "etc"]) 511 ∉
      (ChrootJail.new
        (Env.mk (fun _ => 0) (fun _ => false) (OldPath.mk true ["tmp", "gaol0"]) 1000 1000)
        (Profile.new
          [Operation.FileReadAll (PathPattern.Literal (OldPath.mk true ["etc", "hostname"]))])
        KSt.initial).2.trace ∧
    KernelCall.createFile (OldPath.mk true ["tmp", "gaol0", "etc", "hostname"]) ∉
      (ChrootJail.new
        (Env.mk (fun _ => 0) (fun _ => false) (OldPath.mk true ["tmp", "gaol0"]) 1000 1000)
        (Profile.new
          [Operation.FileReadAll (PathPattern.Literal (OldPath.mk true ["etc", "hostname"]))])
        KSt.initial).2.trace := by
  refine ⟨by decide, by decide, by decide⟩

/-- C7 counterexample to the claim as stated: a failing gid-map write is
surfaced as the constant `Err(1)` whatever its errno was (13 or 5 below),
so the typed error does not carry the originating errno; the sequence does
abort at the failing write (nothing after the gid-map write is attempted). -/
theorem c7_errno_not_carried_counterexample :
    (namespaceActivate
      (Env.mk (fun i => if i = 2 then 13 else 0) (fun _ => false)
        (OldPath.mk true ["tmp", "gaol0"]) 1000 1000)
      (Profile.new []) KSt.initial).1 = Except.error 1 ∧
    (namespaceActivate
      (Env.mk (fun i => if i = 2 then 5 else 0) (fun _ => false)
        (OldPath.mk true ["tmp", "gaol0"]) 1000 1000)
      (Profile.new []) KSt.initial).1 = Except.error 1 ∧
    (namespaceActivate
      (Env.mk (fun i => if i = 2 then 13 else 0) (fun _ => false)
        (OldPath.mk true ["tmp", "gaol0"]) 1000 1000)
      (Profile.new []) KSt.initial).2.trace =
      [KernelCall.unshare 0x5C020200,
       KernelCall.procWrite "/proc/self/setgroups" "deny",
       KernelCall.procWrite "/proc/self/gid_map" "1 1000 1"] ∧
    (1 : Int) ≠ 13 := by
  refine ⟨rfl, rfl, rfl, by decide⟩


/-- Witness for C7: on an all-success environment the jail builder's run
is exactly the ordered `fullTrace`. -/
theorem c7_activate_order_and_abort_witness :
    namespaceActivate
      (Env.mk (fun _ => 0) (fun _ => false) (OldPath.mk true ["tmp", "gaol0"]) 1000 1000)
      (Profile.new []) KSt.initial =
      (Except.ok (),
       KSt.mk
         (fullTrace
           (Env.mk (fun _ => 0) (fun _ => false) (OldPath.mk true ["tmp", "gaol0"]) 1000 1000)
           (Profile.new [])).length
         (fullTrace
           (Env.mk (fun _ => 0) (fun _ => false) (OldPath.mk true ["tmp", "gaol0"]) 1000 1000)
           (Profile.new []))) :=
  (c7_activate_order_and_abort (Profile.new [])
    (Env.mk (fun _ => 0) (fun _ => false) (OldPath.mk true ["tmp", "gaol0"]) 1000 1000)).1
    (fun _ => rfl)

end Gaol
